import Mathlib

/-!
# SoundEffect (framework/sound/soundeffect.cpp): an OpenAL EFX reverb preset loader

A shallow embedding of `SoundEffect::SoundEffect`, `SoundEffect::~SoundEffect`,
`SoundEffect::loadPreset` and `SoundEffect::setPreset`, and the properties of the
specification that concern them.

## How the program is modelled

* The C++ code is a sequence of calls into the OpenAL library.  The library is not
  part of the repository, so it is a parameter (`Env`): its answers to queries, the
  names it hands out and whether it accepts or rejects a call are arbitrary and may
  depend on the calls made so far.  Two facts of the OpenAL interface are built in:
  a generated name is a non-zero 32-bit value, and the error register keeps an error
  until `alGetError` reads it.
* The program state outside the object (`World`) holds the file-level function
  pointers, the chronological trace of calls into the library, the error register,
  the values the library last accepted for effect and slot parameters, and the
  messages given to `g_logger.error`.
* A call through a null function pointer stops the program (`Status.nullCall`), and
  so does a failed `assert` (`Status.assertFailed`): the assertions are taken as
  compiled in.  A stopped program performs no further step.
* `float` values are only copied from a preset into call arguments, never computed
  with, so they are kept as opaque bit patterns.
* The enumeration tokens of `AL/efx.h` are kept symbolic; the preset constants of
  `AL/efx-presets.h` are fields of `Env`.
-/

namespace SoundEffectModel

/-! ## Types of the OpenAL headers used by the source -/

/-- An `ALfloat` / `float`.  The source only copies such values from a preset into
a call argument, so a value is represented by its bit pattern. -/
structure ALfloat where
  bits : Nat
  deriving DecidableEq, Repr

/-- The enumeration tokens of `AL/efx.h` that the source names. -/
inductive ALenum where
  | AL_EFFECT_TYPE
  | AL_EFFECT_EAXREVERB
  | AL_EFFECT_REVERB
  | AL_EFFECTSLOT_EFFECT
  | AL_EAXREVERB_DENSITY
  | AL_EAXREVERB_DIFFUSION
  | AL_EAXREVERB_GAIN
  | AL_EAXREVERB_GAINHF
  | AL_EAXREVERB_GAINLF
  | AL_EAXREVERB_DECAY_TIME
  | AL_EAXREVERB_DECAY_HFRATIO
  | AL_EAXREVERB_DECAY_LFRATIO
  | AL_EAXREVERB_REFLECTIONS_GAIN
  | AL_EAXREVERB_REFLECTIONS_DELAY
  | AL_EAXREVERB_REFLECTIONS_PAN
  | AL_EAXREVERB_LATE_REVERB_GAIN
  | AL_EAXREVERB_LATE_REVERB_DELAY
  | AL_EAXREVERB_LATE_REVERB_PAN
  | AL_EAXREVERB_ECHO_TIME
  | AL_EAXREVERB_ECHO_DEPTH
  | AL_EAXREVERB_MODULATION_TIME
  | AL_EAXREVERB_MODULATION_DEPTH
  | AL_EAXREVERB_AIR_ABSORPTION_GAINHF
  | AL_EAXREVERB_HFREFERENCE
  | AL_EAXREVERB_LFREFERENCE
  | AL_EAXREVERB_ROOM_ROLLOFF_FACTOR
  | AL_EAXREVERB_DECAY_HFLIMIT
  | AL_REVERB_DENSITY
  | AL_REVERB_DIFFUSION
  | AL_REVERB_GAIN
  | AL_REVERB_GAINHF
  | AL_REVERB_DECAY_TIME
  | AL_REVERB_DECAY_HFRATIO
  | AL_REVERB_REFLECTIONS_GAIN
  | AL_REVERB_REFLECTIONS_DELAY
  | AL_REVERB_LATE_REVERB_GAIN
  | AL_REVERB_LATE_REVERB_DELAY
  | AL_REVERB_AIR_ABSORPTION_GAINHF
  | AL_REVERB_ROOM_ROLLOFF_FACTOR
  | AL_REVERB_DECAY_HFLIMIT
  deriving DecidableEq, Repr

open ALenum

/-- The `ALint` argument of `alEffecti`: the source passes either an enumeration
token (the effect type) or the `int` field of a preset. -/
inductive ALintArg where
  | token (e : ALenum)
  | int (i : Int)
  deriving DecidableEq, Repr

/-- The record `EFXEAXREVERBPROPERTIES` of `AL/efx-presets.h`, field by field. -/
structure EFXEAXREVERBPROPERTIES where
  flDensity : ALfloat
  flDiffusion : ALfloat
  flGain : ALfloat
  flGainHF : ALfloat
  flGainLF : ALfloat
  flDecayTime : ALfloat
  flDecayHFRatio : ALfloat
  flDecayLFRatio : ALfloat
  flReflectionsGain : ALfloat
  flReflectionsDelay : ALfloat
  flReflectionsPan : ALfloat × ALfloat × ALfloat
  flLateReverbGain : ALfloat
  flLateReverbDelay : ALfloat
  flLateReverbPan : ALfloat × ALfloat × ALfloat
  flEchoTime : ALfloat
  flEchoDepth : ALfloat
  flModulationTime : ALfloat
  flModulationDepth : ALfloat
  flAirAbsorptionGainHF : ALfloat
  flHFReference : ALfloat
  flLFReference : ALfloat
  flRoomRolloffFactor : ALfloat
  iDecayHFLimit : Int
  deriving DecidableEq, Repr

/-- A call into the audio library, with its arguments.  `alDeleteEffects(1, &id)`
is recorded with the count and the name the pointer designates. -/
inductive ALCall where
  | alGetProcAddress (fname : String)
  | alcIsExtensionPresent (device : Nat) (extname : String)
  | alGetEnumValue (ename : String)
  | alGetError
  | alGenEffects (n : Nat)
  | alGenAuxiliaryEffectSlots (n : Nat)
  | alDeleteEffects (n : Nat) (effect : Nat)
  | alDeleteAuxiliaryEffectSlots (n : Nat) (slot : Nat)
  | alEffecti (effect : Nat) (param : ALenum) (value : ALintArg)
  | alEffectf (effect : Nat) (param : ALenum) (value : ALfloat)
  | alEffectfv (effect : Nat) (param : ALenum) (values : ALfloat × ALfloat × ALfloat)
  | alAuxiliaryEffectSloti (slot : Nat) (param : ALenum) (value : Int)
  deriving DecidableEq, Repr

/-- A value held by a parameter of an effect object. -/
inductive ALValue where
  | i (v : ALintArg)
  | f (v : ALfloat)
  | fv (v : ALfloat × ALfloat × ALfloat)
  deriving DecidableEq, Repr

/-- The cast `(ALint)m_effectId` of a 32-bit unsigned name to a 32-bit signed integer. -/
def ALintCast (u : Nat) : Int :=
  if u % 4294967296 < 2147483648 then ((u % 4294967296 : Nat) : Int)
  else ((u % 4294967296 : Nat) : Int) - 4294967296

/-- The library reads the `ALint` value of `AL_EFFECTSLOT_EFFECT` back as an
unsigned 32-bit effect name. -/
def ALuintOfInt (i : Int) : Nat := (i % 4294967296).toNat

/-! ## What lies outside the source -/

/-- Everything the code depends on that is not in the repository's source: the
audio library's answers, the preset constants of `AL/efx-presets.h` and the
printf-style helper `stdext::format`.  The library's answers may depend on the
calls made so far. -/
structure Env where
  /-- Result of `alcIsExtensionPresent(device, name)`; `false` is `AL_FALSE`. -/
  alcIsExtensionPresent : Nat → String → Bool
  /-- Whether `alGetProcAddress(name)` returns a non-null pointer. -/
  alGetProcAddress : String → Bool
  /-- Result of `alGetEnumValue(name)`. -/
  alGetEnumValue : String → Int
  /-- Outcome of a generation call, given the trace up to and including it: the
  new name, or `none` when the library fails (it then raises an error and leaves
  the output untouched). -/
  genName : List ALCall → Option Nat
  /-- Whether the library rejects (raises an error on) a call, given the trace
  before the call. -/
  rejects : List ALCall → ALCall → Bool
  /-- Names handed out by the library are non-zero 32-bit values. -/
  genName_range : ∀ h n, genName h = some n → 0 < n ∧ n < 4294967296
  /-- The helper `stdext::format` applied to a format string without arguments. -/
  stdext_format : String → String
  EFX_REVERB_PRESET_GENERIC : EFXEAXREVERBPROPERTIES
  EFX_REVERB_PRESET_PADDEDCELL : EFXEAXREVERBPROPERTIES
  EFX_REVERB_PRESET_ROOM : EFXEAXREVERBPROPERTIES
  EFX_REVERB_PRESET_SEWERPIPE : EFXEAXREVERBPROPERTIES
  EFX_REVERB_PRESET_UNDERWATER : EFXEAXREVERBPROPERTIES

/-! ## Program state -/

/-- The 22 file-level `static` function pointers (lines 38-61); `true` means
non-null. -/
structure EfxProcs where
  alGenEffects : Bool
  alDeleteEffects : Bool
  alIsEffect : Bool
  alEffecti : Bool
  alEffectiv : Bool
  alEffectf : Bool
  alEffectfv : Bool
  alGetEffecti : Bool
  alGetEffectiv : Bool
  alGetEffectf : Bool
  alGetEffectfv : Bool
  alGenAuxiliaryEffectSlots : Bool
  alDeleteAuxiliaryEffectSlots : Bool
  alIsAuxiliaryEffectSlot : Bool
  alAuxiliaryEffectSloti : Bool
  alAuxiliaryEffectSlotiv : Bool
  alAuxiliaryEffectSlotf : Bool
  alAuxiliaryEffectSlotfv : Bool
  alGetAuxiliaryEffectSloti : Bool
  alGetAuxiliaryEffectSlotiv : Bool
  alGetAuxiliaryEffectSlotf : Bool
  alGetAuxiliaryEffectSlotfv : Bool
  deriving DecidableEq, Repr

/-- Whether the program is still executing. -/
inductive Status where
  | running
  /-- a call went through a null function pointer -/
  | nullCall
  /-- an `assert` failed -/
  | assertFailed
  deriving DecidableEq, Repr

/-- The state of the program outside the object. -/
structure World where
  /-- the static function pointers -/
  procs : EfxProcs
  /-- every call made into the library, oldest first -/
  calls : List ALCall
  /-- the library's error register: `true` when an error is pending -/
  alError : Bool
  /-- parameters of effect objects, most recently accepted write first -/
  effectParams : List ((Nat × ALenum) × ALValue)
  /-- parameters of auxiliary slots, most recently accepted write first -/
  slotParams : List ((Nat × ALenum) × Int)
  /-- messages handed to `g_logger.error`, oldest first -/
  log : List String
  status : Status
  deriving DecidableEq, Repr

/-- The members of `SoundEffect` (soundeffect.h, lines 52-55).  The map is kept as
the list of its entries; `find` returns the entry of a key. -/
structure SoundEffect where
  m_device : Nat
  m_effectId : Nat
  m_effectSlot : Nat
  m_presets : List (String × EFXEAXREVERBPROPERTIES)
  deriving DecidableEq, Repr

/-- Lookup in an association list: the value of the first entry with the key. -/
def assocFind {κ β : Type} [DecidableEq κ] (k : κ) : List (κ × β) → Option β
  | [] => none
  | (k', v) :: rest => if k' = k then some v else assocFind k rest

/-- The call `m_presets.find(presetName)`: `none` stands for `m_presets.end()`. -/
def SoundEffect.find (self : SoundEffect) (presetName : String) :
    Option EFXEAXREVERBPROPERTIES :=
  assocFind presetName self.m_presets

/-- The value an effect object holds for a parameter, if one was ever accepted. -/
def World.effectParam (w : World) (effect : Nat) (param : ALenum) : Option ALValue :=
  assocFind (effect, param) w.effectParams

/-- The effect an auxiliary slot targets (`AL_EFFECTSLOT_EFFECT`), as an effect name. -/
def World.slotTarget (w : World) (slot : Nat) : Option Nat :=
  (assocFind (slot, AL_EFFECTSLOT_EFFECT) w.slotParams).map ALuintOfInt

/-! ## Primitive steps -/

/-- The function pointer a call goes through; the core functions
(`alGetProcAddress`, `alcIsExtensionPresent`, `alGetEnumValue`, `alGetError`) are
linked directly and are never null. -/
def EfxProcs.resolved (p : EfxProcs) : ALCall → Bool
  | .alGenEffects _ => p.alGenEffects
  | .alGenAuxiliaryEffectSlots _ => p.alGenAuxiliaryEffectSlots
  | .alDeleteEffects _ _ => p.alDeleteEffects
  | .alDeleteAuxiliaryEffectSlots _ _ => p.alDeleteAuxiliaryEffectSlots
  | .alEffecti _ _ _ => p.alEffecti
  | .alEffectf _ _ _ => p.alEffectf
  | .alEffectfv _ _ _ => p.alEffectfv
  | .alAuxiliaryEffectSloti _ _ _ => p.alAuxiliaryEffectSloti
  | _ => true

/-- The change an accepted call makes to the library's objects. -/
def World.apply (w : World) : ALCall → World
  | .alEffecti e p v => { w with effectParams := ((e, p), ALValue.i v) :: w.effectParams }
  | .alEffectf e p v => { w with effectParams := ((e, p), ALValue.f v) :: w.effectParams }
  | .alEffectfv e p v => { w with effectParams := ((e, p), ALValue.fv v) :: w.effectParams }
  | .alAuxiliaryEffectSloti s p v => { w with slotParams := ((s, p), v) :: w.slotParams }
  | _ => w

/-- A call of a function that returns nothing, through its function pointer.  A null
pointer stops the program.  Otherwise the call is made: the library either rejects
it, which sets the error register, or accepts and applies it. -/
def issue (env : Env) (c : ALCall) (w : World) : World :=
  if w.status ≠ Status.running then w
  else if w.procs.resolved c = false then { w with status := Status.nullCall }
  else if env.rejects w.calls c then { w with calls := w.calls ++ [c], alError := true }
  else ({ w with calls := w.calls ++ [c] } : World).apply c

/-- A generation call `alGen...(1, &out)`, through its function pointer: returns
the new content of `out`. -/
def generate (env : Env) (c : ALCall) (out : Nat) (w : World) : Nat × World :=
  if w.status ≠ Status.running then (out, w)
  else if w.procs.resolved c = false then (out, { w with status := Status.nullCall })
  else match env.genName (w.calls ++ [c]) with
    | some n => (n, { w with calls := w.calls ++ [c] })
    | none => (out, { w with calls := w.calls ++ [c], alError := true })

/-- A query of a core library function; only the trace records it. -/
def query (c : ALCall) (w : World) : World :=
  if w.status ≠ Status.running then w else { w with calls := w.calls ++ [c] }

/-- The statement `assert(alGetError() == AL_NO_ERROR)`: `alGetError` returns the
pending error and clears the register; the program stops when there was one. -/
def assertNoError (w : World) : World :=
  if w.status ≠ Status.running then w
  else if w.alError then
    { w with calls := w.calls ++ [ALCall.alGetError], alError := false,
             status := Status.assertFailed }
  else { w with calls := w.calls ++ [ALCall.alGetError] }

/-- The call `g_logger.error(msg)`. -/
def g_logger_error (msg : String) (w : World) : World :=
  if w.status ≠ Status.running then w else { w with log := w.log ++ [msg] }

/-- The function `std::format` of C++20 on a format string and string arguments:
`{}` is replaced by the next argument, `{{` and `}}` stand for a brace, every other
character is copied.  A percent sign has no special meaning.  Replacement fields
with an index or a format specification do not occur in the source and are not
modelled. -/
def std_format_chars : List Char → List String → List Char
  | [], _ => []
  | [c], _ => [c]
  | c :: d :: rest, args =>
    if c = Char.ofNat 123 ∧ d = Char.ofNat 123 then c :: std_format_chars rest args
    else if c = Char.ofNat 125 ∧ d = Char.ofNat 125 then c :: std_format_chars rest args
    else if c = Char.ofNat 123 ∧ d = Char.ofNat 125 then
      match args with
      | a :: more => a.data ++ std_format_chars rest more
      | [] => std_format_chars rest []
    else c :: std_format_chars (d :: rest) args

/-- The function `std::format`, on strings. -/
def std_format (fmt : String) (args : List String) : String :=
  String.mk (std_format_chars fmt.data args)

/-! ## The entry points, as the source calls them -/

/-- The call `alEffecti(effect, param, value)`. -/
def alEffecti (env : Env) (effect : Nat) (param : ALenum) (value : ALintArg) (w : World) :
    World :=
  issue env (ALCall.alEffecti effect param value) w

/-- The call `alEffectf(effect, param, value)`. -/
def alEffectf (env : Env) (effect : Nat) (param : ALenum) (value : ALfloat) (w : World) :
    World :=
  issue env (ALCall.alEffectf effect param value) w

/-- The call `alEffectfv(effect, param, values)`. -/
def alEffectfv (env : Env) (effect : Nat) (param : ALenum)
    (values : ALfloat × ALfloat × ALfloat) (w : World) : World :=
  issue env (ALCall.alEffectfv effect param values) w

/-- The call `alAuxiliaryEffectSloti(slot, param, value)`. -/
def alAuxiliaryEffectSloti (env : Env) (slot : Nat) (param : ALenum) (value : Int)
    (w : World) : World :=
  issue env (ALCall.alAuxiliaryEffectSloti slot param value) w

/-- The call `alDeleteEffects(n, &effect)`. -/
def alDeleteEffects (env : Env) (n : Nat) (effect : Nat) (w : World) : World :=
  issue env (ALCall.alDeleteEffects n effect) w

/-- The call `alDeleteAuxiliaryEffectSlots(n, &slot)`. -/
def alDeleteAuxiliaryEffectSlots (env : Env) (n : Nat) (slot : Nat) (w : World) : World :=
  issue env (ALCall.alDeleteAuxiliaryEffectSlots n slot) w

/-- The statement `LOAD_PROC(T, x)` (line 77): `x = (T)alGetProcAddress("x")`. -/
def LOAD_PROC (env : Env) (fname : String) (assign : EfxProcs → Bool → EfxProcs)
    (w : World) : World :=
  if w.status ≠ Status.running then w
  else { w with calls := w.calls ++ [ALCall.alGetProcAddress fname],
                procs := assign w.procs (env.alGetProcAddress fname) }

/-! ## The member functions of `SoundEffect` -/

/-- Lines 78-100 of the constructor: the 22 `LOAD_PROC` statements. -/
def loadProcs (env : Env) (w : World) : World :=
  w
    |> LOAD_PROC env "alGenEffects" (fun p b => { p with alGenEffects := b })
    |> LOAD_PROC env "alDeleteEffects" (fun p b => { p with alDeleteEffects := b })
    |> LOAD_PROC env "alIsEffect" (fun p b => { p with alIsEffect := b })
    |> LOAD_PROC env "alEffecti" (fun p b => { p with alEffecti := b })
    |> LOAD_PROC env "alEffectiv" (fun p b => { p with alEffectiv := b })
    |> LOAD_PROC env "alEffectf" (fun p b => { p with alEffectf := b })
    |> LOAD_PROC env "alEffectfv" (fun p b => { p with alEffectfv := b })
    |> LOAD_PROC env "alGetEffecti" (fun p b => { p with alGetEffecti := b })
    |> LOAD_PROC env "alGetEffectiv" (fun p b => { p with alGetEffectiv := b })
    |> LOAD_PROC env "alGetEffectf" (fun p b => { p with alGetEffectf := b })
    |> LOAD_PROC env "alGetEffectfv" (fun p b => { p with alGetEffectfv := b })
    |> LOAD_PROC env "alGenAuxiliaryEffectSlots" (fun p b => { p with alGenAuxiliaryEffectSlots := b })
    |> LOAD_PROC env "alDeleteAuxiliaryEffectSlots" (fun p b => { p with alDeleteAuxiliaryEffectSlots := b })
    |> LOAD_PROC env "alIsAuxiliaryEffectSlot" (fun p b => { p with alIsAuxiliaryEffectSlot := b })
    |> LOAD_PROC env "alAuxiliaryEffectSloti" (fun p b => { p with alAuxiliaryEffectSloti := b })
    |> LOAD_PROC env "alAuxiliaryEffectSlotiv" (fun p b => { p with alAuxiliaryEffectSlotiv := b })
    |> LOAD_PROC env "alAuxiliaryEffectSlotf" (fun p b => { p with alAuxiliaryEffectSlotf := b })
    |> LOAD_PROC env "alAuxiliaryEffectSlotfv" (fun p b => { p with alAuxiliaryEffectSlotfv := b })
    |> LOAD_PROC env "alGetAuxiliaryEffectSloti" (fun p b => { p with alGetAuxiliaryEffectSloti := b })
    |> LOAD_PROC env "alGetAuxiliaryEffectSlotiv" (fun p b => { p with alGetAuxiliaryEffectSlotiv := b })
    |> LOAD_PROC env "alGetAuxiliaryEffectSlotf" (fun p b => { p with alGetAuxiliaryEffectSlotf := b })
    |> LOAD_PROC env "alGetAuxiliaryEffectSlotfv" (fun p b => { p with alGetAuxiliaryEffectSlotfv := b })

/-- Lines 104-120 of the constructor, under the comment "Query for Effect
Extension": the extension query, the two error exits, the allocation of the effect
and of the slot, the slot bind and the assertions. -/
def SoundEffect.queryEffectExtension (env : Env) (self : SoundEffect) (w1 : World) :
    SoundEffect × World :=
  let w2 := query (ALCall.alcIsExtensionPresent self.m_device "ALC_EXT_EFX") w1
  if env.alcIsExtensionPresent self.m_device "ALC_EXT_EFX" = false then
    let w3 := g_logger_error (env.stdext_format "unable to locate OpenAl EFX extension") w2
    (self, assertNoError w3)
  else if w2.procs.alGenEffects = false then
    (self, g_logger_error (env.stdext_format "unable to load OpenAl EFX extension") w2)
  else
    let r1 := generate env (ALCall.alGenEffects 1) self.m_effectId w2
    let self1 : SoundEffect := { self with m_effectId := r1.1 }
    let r2 := generate env (ALCall.alGenAuxiliaryEffectSlots 1) self1.m_effectSlot r1.2
    let self2 : SoundEffect := { self1 with m_effectSlot := r2.1 }
    let w5 := alAuxiliaryEffectSloti env self2.m_effectSlot AL_EFFECTSLOT_EFFECT
      (ALintCast self2.m_effectId) r2.2
    let w6 := assertNoError w5
    (self2, assertNoError w6)

/-- The constructor `SoundEffect::SoundEffect(ALCdevice* device)` (lines 63-121):
the member assignments, the catalog, the `LOAD_PROC` statements, then the part
under "Query for Effect Extension". -/
def SoundEffect.ctor (env : Env) (device : Nat) (w : World) : SoundEffect × World :=
  let self : SoundEffect :=
    { m_device := device, m_effectId := 0, m_effectSlot := 0,
      m_presets := [("generic", env.EFX_REVERB_PRESET_GENERIC),
                    ("paddedCell", env.EFX_REVERB_PRESET_PADDEDCELL),
                    ("room", env.EFX_REVERB_PRESET_ROOM),
                    ("sewerPipe", env.EFX_REVERB_PRESET_SEWERPIPE),
                    ("underWater", env.EFX_REVERB_PRESET_UNDERWATER)] }
  self.queryEffectExtension env (loadProcs env w)

/-- The destructor `SoundEffect::~SoundEffect()` (lines 123-130). -/
def SoundEffect.dtor (env : Env) (self : SoundEffect) (w : World) : World :=
  if self.m_effectId ≠ 0 then
    w
      |> alDeleteEffects env 1 self.m_effectId
      |> alDeleteAuxiliaryEffectSlots env 1 self.m_effectSlot
      |> assertNoError
  else w

/-- The member `SoundEffect::loadPreset` (lines 132-194). -/
def SoundEffect.loadPreset (env : Env) (self : SoundEffect)
    (preset : EFXEAXREVERBPROPERTIES) (w : World) : SoundEffect × World :=
  let w0 := query (ALCall.alGetEnumValue "AL_EFFECT_EAXREVERB") w
  let w1 :=
    if env.alGetEnumValue "AL_EFFECT_EAXREVERB" ≠ 0 then
      w0
        |> alEffecti env self.m_effectId AL_EFFECT_TYPE
             (ALintArg.token AL_EFFECT_EAXREVERB)
        |> alEffectf env self.m_effectId AL_EAXREVERB_DENSITY preset.flDensity
        |> alEffectf env self.m_effectId AL_EAXREVERB_DIFFUSION preset.flDiffusion
        |> alEffectf env self.m_effectId AL_EAXREVERB_GAIN preset.flGain
        |> alEffectf env self.m_effectId AL_EAXREVERB_GAINHF preset.flGainHF
        |> alEffectf env self.m_effectId AL_EAXREVERB_GAINLF preset.flGainLF
        |> alEffectf env self.m_effectId AL_EAXREVERB_DECAY_TIME preset.flDecayTime
        |> alEffectf env self.m_effectId AL_EAXREVERB_DECAY_HFRATIO preset.flDecayHFRatio
        |> alEffectf env self.m_effectId AL_EAXREVERB_DECAY_LFRATIO preset.flDecayLFRatio
        |> alEffectf env self.m_effectId AL_EAXREVERB_REFLECTIONS_GAIN preset.flReflectionsGain
        |> alEffectf env self.m_effectId AL_EAXREVERB_REFLECTIONS_DELAY preset.flReflectionsDelay
        |> alEffectfv env self.m_effectId AL_EAXREVERB_REFLECTIONS_PAN preset.flReflectionsPan
        |> alEffectf env self.m_effectId AL_EAXREVERB_LATE_REVERB_GAIN preset.flLateReverbGain
        |> alEffectf env self.m_effectId AL_EAXREVERB_LATE_REVERB_DELAY preset.flLateReverbDelay
        |> alEffectfv env self.m_effectId AL_EAXREVERB_LATE_REVERB_PAN preset.flLateReverbPan
        |> alEffectf env self.m_effectId AL_EAXREVERB_ECHO_TIME preset.flEchoTime
        |> alEffectf env self.m_effectId AL_EAXREVERB_ECHO_DEPTH preset.flEchoDepth
        |> alEffectf env self.m_effectId AL_EAXREVERB_MODULATION_TIME preset.flModulationTime
        |> alEffectf env self.m_effectId AL_EAXREVERB_MODULATION_DEPTH preset.flModulationDepth
        |> alEffectf env self.m_effectId AL_EAXREVERB_AIR_ABSORPTION_GAINHF preset.flAirAbsorptionGainHF
        |> alEffectf env self.m_effectId AL_EAXREVERB_HFREFERENCE preset.flHFReference
        |> alEffectf env self.m_effectId AL_EAXREVERB_LFREFERENCE preset.flLFReference
        |> alEffectf env self.m_effectId AL_EAXREVERB_ROOM_ROLLOFF_FACTOR preset.flRoomRolloffFactor
        |> alEffecti env self.m_effectId AL_EAXREVERB_DECAY_HFLIMIT (ALintArg.int preset.iDecayHFLimit)
    else
      w0
        |> alEffecti env self.m_effectId AL_EFFECT_TYPE
             (ALintArg.token AL_EFFECT_REVERB)
        |> alEffectf env self.m_effectId AL_REVERB_DENSITY preset.flDensity
        |> alEffectf env self.m_effectId AL_REVERB_DIFFUSION preset.flDiffusion
        |> alEffectf env self.m_effectId AL_REVERB_GAIN preset.flGain
        |> alEffectf env self.m_effectId AL_REVERB_GAINHF preset.flGainHF
        |> alEffectf env self.m_effectId AL_REVERB_DECAY_TIME preset.flDecayTime
        |> alEffectf env self.m_effectId AL_REVERB_DECAY_HFRATIO preset.flDecayHFRatio
        |> alEffectf env self.m_effectId AL_REVERB_REFLECTIONS_GAIN preset.flReflectionsGain
        |> alEffectf env self.m_effectId AL_REVERB_REFLECTIONS_DELAY preset.flReflectionsDelay
        |> alEffectf env self.m_effectId AL_REVERB_LATE_REVERB_GAIN preset.flLateReverbGain
        |> alEffectf env self.m_effectId AL_REVERB_LATE_REVERB_DELAY preset.flLateReverbDelay
        |> alEffectf env self.m_effectId AL_REVERB_AIR_ABSORPTION_GAINHF preset.flAirAbsorptionGainHF
        |> alEffectf env self.m_effectId AL_REVERB_ROOM_ROLLOFF_FACTOR preset.flRoomRolloffFactor
        |> alEffecti env self.m_effectId AL_REVERB_DECAY_HFLIMIT (ALintArg.int preset.iDecayHFLimit)
  let w2 := alAuxiliaryEffectSloti env self.m_effectSlot AL_EFFECTSLOT_EFFECT
    (ALintCast self.m_effectId) w1
  (self, assertNoError w2)

/-- The member `SoundEffect::setPreset` (lines 196-205). -/
def SoundEffect.setPreset (env : Env) (presetName : String) (self : SoundEffect)
    (w : World) : SoundEffect × World :=
  match self.find presetName with
  | some preset => self.loadPreset env preset w
  | none =>
    (self, g_logger_error
      (std_format "Could not find preset matching: %s\n" [presetName]) w)

/-! ## The preset fields and the two reverb models, as the specification words them -/

/-- The 23 fields of a reverb preset. -/
inductive PresetField where
  | density | diffusion | gain | gainHF | gainLF | decayTime | decayHFRatio
  | decayLFRatio | reflectionsGain | reflectionsDelay | reflectionsPan
  | lateReverbGain | lateReverbDelay | lateReverbPan | echoTime | echoDepth
  | modulationTime | modulationDepth | airAbsorptionGainHF | hfReference
  | lfReference | roomRolloffFactor | decayHFLimit
  deriving DecidableEq, Repr

/-- All preset fields, in the order of the record. -/
def PresetField.all : List PresetField :=
  [.density, .diffusion, .gain, .gainHF, .gainLF, .decayTime, .decayHFRatio,
   .decayLFRatio, .reflectionsGain, .reflectionsDelay, .reflectionsPan,
   .lateReverbGain, .lateReverbDelay, .lateReverbPan, .echoTime, .echoDepth,
   .modulationTime, .modulationDepth, .airAbsorptionGainHF, .hfReference,
   .lfReference, .roomRolloffFactor, .decayHFLimit]

/-- The value of a field in a preset, tagged with its kind: the decay-limit flag is
an integer, the two pans are float vectors, every other field is a float. -/
def PresetField.value (p : EFXEAXREVERBPROPERTIES) : PresetField → ALValue
  | .density => .f p.flDensity
  | .diffusion => .f p.flDiffusion
  | .gain => .f p.flGain
  | .gainHF => .f p.flGainHF
  | .gainLF => .f p.flGainLF
  | .decayTime => .f p.flDecayTime
  | .decayHFRatio => .f p.flDecayHFRatio
  | .decayLFRatio => .f p.flDecayLFRatio
  | .reflectionsGain => .f p.flReflectionsGain
  | .reflectionsDelay => .f p.flReflectionsDelay
  | .reflectionsPan => .fv p.flReflectionsPan
  | .lateReverbGain => .f p.flLateReverbGain
  | .lateReverbDelay => .f p.flLateReverbDelay
  | .lateReverbPan => .fv p.flLateReverbPan
  | .echoTime => .f p.flEchoTime
  | .echoDepth => .f p.flEchoDepth
  | .modulationTime => .f p.flModulationTime
  | .modulationDepth => .f p.flModulationDepth
  | .airAbsorptionGainHF => .f p.flAirAbsorptionGainHF
  | .hfReference => .f p.flHFReference
  | .lfReference => .f p.flLFReference
  | .roomRolloffFactor => .f p.flRoomRolloffFactor
  | .decayHFLimit => .i (.int p.iDecayHFLimit)

/-- The parameter token of a field in the extended model. -/
def PresetField.eaxToken : PresetField → ALenum
  | .density => .AL_EAXREVERB_DENSITY
  | .diffusion => .AL_EAXREVERB_DIFFUSION
  | .gain => .AL_EAXREVERB_GAIN
  | .gainHF => .AL_EAXREVERB_GAINHF
  | .gainLF => .AL_EAXREVERB_GAINLF
  | .decayTime => .AL_EAXREVERB_DECAY_TIME
  | .decayHFRatio => AL_EAXREVERB_DECAY_HFRATIO
  | .decayLFRatio => AL_EAXREVERB_DECAY_LFRATIO
  | .reflectionsGain => .AL_EAXREVERB_REFLECTIONS_GAIN
  | .reflectionsDelay => .AL_EAXREVERB_REFLECTIONS_DELAY
  | .reflectionsPan => .AL_EAXREVERB_REFLECTIONS_PAN
  | .lateReverbGain => .AL_EAXREVERB_LATE_REVERB_GAIN
  | .lateReverbDelay => .AL_EAXREVERB_LATE_REVERB_DELAY
  | .lateReverbPan => .AL_EAXREVERB_LATE_REVERB_PAN
  | .echoTime => .AL_EAXREVERB_ECHO_TIME
  | .echoDepth => .AL_EAXREVERB_ECHO_DEPTH
  | .modulationTime => .AL_EAXREVERB_MODULATION_TIME
  | .modulationDepth => .AL_EAXREVERB_MODULATION_DEPTH
  | .airAbsorptionGainHF => .AL_EAXREVERB_AIR_ABSORPTION_GAINHF
  | .hfReference => .AL_EAXREVERB_HFREFERENCE
  | .lfReference => .AL_EAXREVERB_LFREFERENCE
  | .roomRolloffFactor => .AL_EAXREVERB_ROOM_ROLLOFF_FACTOR
  | .decayHFLimit => .AL_EAXREVERB_DECAY_HFLIMIT

/-- The parameter token of a field in the standard model, when `AL/efx.h` has one. -/
def PresetField.stdToken : PresetField → Option ALenum
  | .density => some .AL_REVERB_DENSITY
  | .diffusion => some .AL_REVERB_DIFFUSION
  | .gain => some .AL_REVERB_GAIN
  | .gainHF => some .AL_REVERB_GAINHF
  | .decayTime => some .AL_REVERB_DECAY_TIME
  | .decayHFRatio => some AL_REVERB_DECAY_HFRATIO
  | .reflectionsGain => some .AL_REVERB_REFLECTIONS_GAIN
  | .reflectionsDelay => some .AL_REVERB_REFLECTIONS_DELAY
  | .lateReverbGain => some .AL_REVERB_LATE_REVERB_GAIN
  | .lateReverbDelay => some .AL_REVERB_LATE_REVERB_DELAY
  | .airAbsorptionGainHF => some .AL_REVERB_AIR_ABSORPTION_GAINHF
  | .roomRolloffFactor => some .AL_REVERB_ROOM_ROLLOFF_FACTOR
  | .decayHFLimit => some .AL_REVERB_DECAY_HFLIMIT
  | _ => none

/-- The call that writes a tagged value through the setter of its kind. -/
def setterCall (effect : Nat) (param : ALenum) : ALValue → ALCall
  | .i v => .alEffecti effect param v
  | .f v => .alEffectf effect param v
  | .fv v => .alEffectfv effect param v

/-- The fields the specification names as missing from the standard model:
low-frequency gain, low-frequency decay ratio, modulation time and depth, and the
two reference fields. -/
def claimedMissingFromStandard : List PresetField :=
  [.gainLF, .decayLFRatio, .modulationTime, .modulationDepth, .hfReference, .lfReference]

/-- The standard field set as the specification words it: the extended set without
the fields it names as missing. -/
def claimedStandardFields : List PresetField :=
  PresetField.all.filter (fun f => f ∉ claimedMissingFromStandard)

/-- The standard field set of the code: the one above without the two pan vectors
and without echo time and depth. -/
def standardFields : List PresetField :=
  claimedStandardFields.filter
    (fun f => f ∉ [PresetField.reflectionsPan, .lateReverbPan, .echoTime, .echoDepth])

/-- The field set of a model: every field for the extended model (`eax = true`). -/
def modelFields (eax : Bool) : List PresetField :=
  if eax then PresetField.all else standardFields

/-- The parameter token a model uses for a field. -/
def modelToken (eax : Bool) (f : PresetField) : ALenum :=
  if eax then f.eaxToken else (f.stdToken).getD f.eaxToken

/-- The effect-type token of a model. -/
def modelType (eax : Bool) : ALenum :=
  if eax then .AL_EFFECT_EAXREVERB else .AL_EFFECT_REVERB

/-- One write per field of a list, each with the value of the field in the preset
and through the setter of its kind. -/
def writesOf (eax : Bool) (fields : List PresetField) (effect : Nat)
    (p : EFXEAXREVERBPROPERTIES) : List ALCall :=
  fields.map (fun f => setterCall effect (modelToken eax f) (f.value p))

/-- The writes of a model's field set. -/
def fieldWrites (eax : Bool) (effect : Nat) (p : EFXEAXREVERBPROPERTIES) : List ALCall :=
  writesOf eax (modelFields eax) effect p

/-- The effect-type write that opens a load. -/
def typeWrite (eax : Bool) (effect : Nat) : ALCall :=
  .alEffecti effect .AL_EFFECT_TYPE (.token (modelType eax))

/-- The bind of the auxiliary slot to the effect object. -/
def slotBind (slot effect : Nat) : ALCall :=
  .alAuxiliaryEffectSloti slot .AL_EFFECTSLOT_EFFECT (ALintCast effect)

/-- Whether the library recognises the extended model (line 134). -/
def Env.eax (env : Env) : Bool :=
  decide (env.alGetEnumValue "AL_EFFECT_EAXREVERB" ≠ 0)

/-- The calls of one parameter-load sequence: the model query, the type write, the
field writes, the slot bind and the error check of the assertion. -/
def loadCalls (eax : Bool) (effect slot : Nat) (p : EFXEAXREVERBPROPERTIES) : List ALCall :=
  [.alGetEnumValue "AL_EFFECT_EAXREVERB", typeWrite eax effect]
    ++ fieldWrites eax effect p ++ [slotBind slot effect, .alGetError]

/-- Whether a call writes a preset field of an effect object (a setter call whose
parameter is not the effect type). -/
def isFieldWrite : ALCall → Bool
  | .alEffecti _ p _ => decide (p ≠ .AL_EFFECT_TYPE)
  | .alEffectf _ p _ => decide (p ≠ .AL_EFFECT_TYPE)
  | .alEffectfv _ p _ => decide (p ≠ .AL_EFFECT_TYPE)
  | _ => false

/-- Whether a call writes the effect type of an effect object. -/
def isTypeWrite : ALCall → Bool
  | .alEffecti _ p _ => decide (p = .AL_EFFECT_TYPE)
  | .alEffectf _ p _ => decide (p = .AL_EFFECT_TYPE)
  | .alEffectfv _ p _ => decide (p = .AL_EFFECT_TYPE)
  | _ => false

/-- Whether a call allocates an object or binds or configures a slot. -/
def isAllocOrBind : ALCall → Bool
  | .alGenEffects _ => true
  | .alGenAuxiliaryEffectSlots _ => true
  | .alAuxiliaryEffectSloti _ _ _ => true
  | _ => false

/-- Whether a call releases an object. -/
def isDelete : ALCall → Bool
  | .alDeleteEffects _ _ => true
  | .alDeleteAuxiliaryEffectSlots _ _ => true
  | _ => false

/-- A sequence of calls through function pointers, in order. -/
def issueAll (env : Env) (cs : List ALCall) (w : World) : World :=
  cs.foldl (fun w c => issue env c w) w

/-- The names of the 22 entry points, in the order the constructor loads them. -/
def procNames : List String :=
  ["alGenEffects", "alDeleteEffects", "alIsEffect", "alEffecti", "alEffectiv",
   "alEffectf", "alEffectfv", "alGetEffecti", "alGetEffectiv", "alGetEffectf",
   "alGetEffectfv", "alGenAuxiliaryEffectSlots", "alDeleteAuxiliaryEffectSlots",
   "alIsAuxiliaryEffectSlot", "alAuxiliaryEffectSloti", "alAuxiliaryEffectSlotiv",
   "alAuxiliaryEffectSlotf", "alAuxiliaryEffectSlotfv", "alGetAuxiliaryEffectSloti",
   "alGetAuxiliaryEffectSlotiv", "alGetAuxiliaryEffectSlotf",
   "alGetAuxiliaryEffectSlotfv"]

/-- The five names of the built-in catalog. -/
def builtinNames : List String :=
  ["generic", "paddedCell", "room", "sewerPipe", "underWater"]

/-! ## Conditions named in the statements, and concrete inputs -/

/-- The entry points `loadPreset` calls are resolved. -/
def EfxProcs.loadReady (p : EfxProcs) : Prop :=
  p.alEffecti = true ∧ p.alEffectf = true ∧ p.alEffectfv = true ∧
    p.alAuxiliaryEffectSloti = true

instance (p : EfxProcs) : Decidable p.loadReady := by
  unfold EfxProcs.loadReady
  infer_instance

/-- The entry points the destructor calls are resolved. -/
def EfxProcs.deleteReady (p : EfxProcs) : Prop :=
  p.alDeleteEffects = true ∧ p.alDeleteAuxiliaryEffectSlots = true

instance (p : EfxProcs) : Decidable p.deleteReady := by
  unfold EfxProcs.deleteReady
  infer_instance

/-- The calls of the constructor up to the extension query: the 22 look-ups and the
query itself. -/
def ctorQueries (device : Nat) : List ALCall :=
  procNames.map ALCall.alGetProcAddress ++ [ALCall.alcIsExtensionPresent device "ALC_EXT_EFX"]

/-- The calls of the constructor on its allocation path (lines 113-120). -/
def ctorAllocCalls (effect slot : Nat) : List ALCall :=
  [.alGenEffects 1, .alGenAuxiliaryEffectSlots 1, slotBind slot effect, .alGetError,
   .alGetError]

/-- The calls of the destructor of an instance with a non-zero effect name. -/
def dtorCalls (effect slot : Nat) : List ALCall :=
  [.alDeleteEffects 1 effect, .alDeleteAuxiliaryEffectSlots 1 slot, .alGetError]

/-- The states the public constructor and any sequence of `setPreset` calls lead to. -/
inductive Reachable (env : Env) : SoundEffect × World → Prop where
  | ctor (device : Nat) (w : World) (hrun : w.status = Status.running) :
      Reachable env (SoundEffect.ctor env device w)
  | setPreset (st : SoundEffect × World) (presetName : String) (h : Reachable env st) :
      Reachable env (st.1.setPreset env presetName st.2)

/-- The scenario: construct, `setPreset("room")`, `setPreset("underWater")`, destroy.
Returns the world after each of the four steps. -/
def scenario (env : Env) (device : Nat) (w : World) : World × World × World × World :=
  let a := SoundEffect.ctor env device w
  let b := a.1.setPreset env "room" a.2
  let c := b.1.setPreset env "underWater" b.2
  (a.2, b.2, c.2, c.1.dtor env c.2)

/-- A device is capable: the extension is present, every entry point resolves, the
library allocates on request and accepts every call. -/
def Env.capable (env : Env) (device : Nat) : Prop :=
  env.alcIsExtensionPresent device "ALC_EXT_EFX" = true ∧
    (∀ n ∈ procNames, env.alGetProcAddress n = true) ∧
    (∀ h, env.genName h ≠ none) ∧ (∀ h c, env.rejects h c = false)

/-- A preset whose fields hold pairwise different bit patterns. -/
def samplePreset (k : Nat) : EFXEAXREVERBPROPERTIES :=
  { flDensity := ⟨k + 1⟩, flDiffusion := ⟨k + 2⟩, flGain := ⟨k + 3⟩, flGainHF := ⟨k + 4⟩,
    flGainLF := ⟨k + 5⟩, flDecayTime := ⟨k + 6⟩, flDecayHFRatio := ⟨k + 7⟩,
    flDecayLFRatio := ⟨k + 8⟩, flReflectionsGain := ⟨k + 9⟩, flReflectionsDelay := ⟨k + 10⟩,
    flReflectionsPan := (⟨k + 11⟩, ⟨k + 12⟩, ⟨k + 13⟩), flLateReverbGain := ⟨k + 14⟩,
    flLateReverbDelay := ⟨k + 15⟩, flLateReverbPan := (⟨k + 16⟩, ⟨k + 17⟩, ⟨k + 18⟩),
    flEchoTime := ⟨k + 19⟩, flEchoDepth := ⟨k + 20⟩, flModulationTime := ⟨k + 21⟩,
    flModulationDepth := ⟨k + 22⟩, flAirAbsorptionGainHF := ⟨k + 23⟩,
    flHFReference := ⟨k + 24⟩, flLFReference := ⟨k + 25⟩, flRoomRolloffFactor := ⟨k + 26⟩,
    iDecayHFLimit := 1 }

/-- A library for concrete runs: `ext` is the answer of the extension query,
`resolves` tells which entry points resolve, `eaxValue` is the value of
`alGetEnumValue`, allocation always succeeds and no call is rejected. -/
def sampleEnv (ext : Bool) (resolves : String → Bool) (eaxValue : Int) : Env :=
  { alcIsExtensionPresent := fun _ _ => ext
    alGetProcAddress := resolves
    alGetEnumValue := fun _ => eaxValue
    genName := fun h => some (h.length % 1000 + 1)
    rejects := fun _ _ => false
    genName_range := by
      intro h n hn
      simp only [Option.some.injEq] at hn
      omega
    stdext_format := fun s => s
    EFX_REVERB_PRESET_GENERIC := samplePreset 100
    EFX_REVERB_PRESET_PADDEDCELL := samplePreset 200
    EFX_REVERB_PRESET_ROOM := samplePreset 300
    EFX_REVERB_PRESET_SEWERPIPE := samplePreset 400
    EFX_REVERB_PRESET_UNDERWATER := samplePreset 500 }

/-- A capable library that recognises the extended model. -/
def eaxEnv : Env := sampleEnv true (fun _ => true) 32768

/-- A capable library that only has the standard model. -/
def standardEnv : Env := sampleEnv true (fun _ => true) 0

/-- A library without the extension. -/
def bareEnv : Env := sampleEnv false (fun _ => false) 0

/-- A library with the extension whose `alGenEffects` does not resolve. -/
def noGenEnv : Env := sampleEnv true (fun n => decide (n ≠ "alGenEffects")) 32768

/-- A library with the extension where only `alGenAuxiliaryEffectSlots` does not
resolve. -/
def noSlotGenEnv : Env :=
  sampleEnv true (fun n => decide (n ≠ "alGenAuxiliaryEffectSlots")) 32768

/-- Function pointers that all hold the same value. -/
def EfxProcs.const (b : Bool) : EfxProcs :=
  ⟨b, b, b, b, b, b, b, b, b, b, b, b, b, b, b, b, b, b, b, b, b, b⟩

/-- The program before any instance exists: null pointers, nothing called, no
pending error, nothing logged. -/
def startWorld : World :=
  { procs := EfxProcs.const false, calls := [], alError := false, effectParams := [],
    slotParams := [], log := [], status := Status.running }

/-- The function pointers after the 22 `LOAD_PROC` statements. -/
def Env.loadedProcs (env : Env) : EfxProcs :=
  { alGenEffects := env.alGetProcAddress "alGenEffects"
    alDeleteEffects := env.alGetProcAddress "alDeleteEffects"
    alIsEffect := env.alGetProcAddress "alIsEffect"
    alEffecti := env.alGetProcAddress "alEffecti"
    alEffectiv := env.alGetProcAddress "alEffectiv"
    alEffectf := env.alGetProcAddress "alEffectf"
    alEffectfv := env.alGetProcAddress "alEffectfv"
    alGetEffecti := env.alGetProcAddress "alGetEffecti"
    alGetEffectiv := env.alGetProcAddress "alGetEffectiv"
    alGetEffectf := env.alGetProcAddress "alGetEffectf"
    alGetEffectfv := env.alGetProcAddress "alGetEffectfv"
    alGenAuxiliaryEffectSlots := env.alGetProcAddress "alGenAuxiliaryEffectSlots"
    alDeleteAuxiliaryEffectSlots := env.alGetProcAddress "alDeleteAuxiliaryEffectSlots"
    alIsAuxiliaryEffectSlot := env.alGetProcAddress "alIsAuxiliaryEffectSlot"
    alAuxiliaryEffectSloti := env.alGetProcAddress "alAuxiliaryEffectSloti"
    alAuxiliaryEffectSlotiv := env.alGetProcAddress "alAuxiliaryEffectSlotiv"
    alAuxiliaryEffectSlotf := env.alGetProcAddress "alAuxiliaryEffectSlotf"
    alAuxiliaryEffectSlotfv := env.alGetProcAddress "alAuxiliaryEffectSlotfv"
    alGetAuxiliaryEffectSloti := env.alGetProcAddress "alGetAuxiliaryEffectSloti"
    alGetAuxiliaryEffectSlotiv := env.alGetProcAddress "alGetAuxiliaryEffectSlotiv"
    alGetAuxiliaryEffectSlotf := env.alGetProcAddress "alGetAuxiliaryEffectSlotf"
    alGetAuxiliaryEffectSlotfv := env.alGetProcAddress "alGetAuxiliaryEffectSlotfv" }

/-- The catalog the constructor builds (lines 69-75). -/
def Env.catalog (env : Env) : List (String × EFXEAXREVERBPROPERTIES) :=
  [("generic", env.EFX_REVERB_PRESET_GENERIC),
   ("paddedCell", env.EFX_REVERB_PRESET_PADDEDCELL),
   ("room", env.EFX_REVERB_PRESET_ROOM),
   ("sewerPipe", env.EFX_REVERB_PRESET_SEWERPIPE),
   ("underWater", env.EFX_REVERB_PRESET_UNDERWATER)]

/-- The program with every entry point resolved and nothing else done. -/
def readyWorld : World :=
  { startWorld with procs := EfxProcs.const true }

/-- An instance in the Active state: effect 7 bound to slot 9, built-in catalog. -/
def activeObject : SoundEffect := ⟨1, 7, 9, eaxEnv.catalog⟩

/-- An instance in the state the failed constructor leaves: both handles zero. -/
def inertObject : SoundEffect := ⟨1, 0, 0, eaxEnv.catalog⟩

/-- Whether a text occurs in another as a run of consecutive characters. -/
def occursIn (needle haystack : String) : Prop :=
  needle.data <:+: haystack.data

instance (a b : String) : Decidable (occursIn a b) := by
  unfold occursIn
  infer_instance

/-- Whether a call goes through the float-vector setter. -/
def isVectorWrite : ALCall → Bool
  | .alEffectfv _ _ _ => true
  | _ => false

/-- A call with the effect and slot names it passes replaced by zero: two calls with
the same image differ only in the handles passed. -/
def eraseHandles : ALCall → ALCall
  | .alEffecti _ p v => .alEffecti 0 p v
  | .alEffectf _ p v => .alEffectf 0 p v
  | .alEffectfv _ p v => .alEffectfv 0 p v
  | .alAuxiliaryEffectSloti _ p _ => .alAuxiliaryEffectSloti 0 p 0
  | .alDeleteEffects n _ => .alDeleteEffects n 0
  | .alDeleteAuxiliaryEffectSlots n _ => .alDeleteAuxiliaryEffectSlots n 0
  | c => c

/-- Two worlds that went through the same steps up to the handles passed: same
status, same function pointers, same log, and traces that agree once the handles
are erased. -/
def World.sameUpToHandles (w1 w2 : World) : Prop :=
  w1.status = w2.status ∧ w1.procs = w2.procs ∧ w1.log = w2.log ∧
    w1.calls.map eraseHandles = w2.calls.map eraseHandles

/-! ## Lemmas on the primitive steps -/

theorem ALuintOfInt_ALintCast (u : Nat) (h : u < 4294967296) :
    ALuintOfInt (ALintCast u) = u := by
  unfold ALuintOfInt ALintCast
  have hm : u % 4294967296 = u := Nat.mod_eq_of_lt h
  rw [hm]
  split <;> omega

theorem assocFind_eq_none {κ β : Type} [DecidableEq κ] (k : κ) (l : List (κ × β))
    (h : k ∉ l.map Prod.fst) : assocFind k l = none := by
  induction l with
  | nil => rfl
  | cons a t ih =>
    obtain ⟨k', v⟩ := a
    simp only [List.map_cons, List.mem_cons, not_or] at h
    have hne : ¬ k' = k := fun e => h.1 e.symm
    simp only [assocFind, hne, if_false]
    exact ih h.2

theorem issue_of_resolved (env : Env) (c : ALCall) (w : World)
    (hrun : w.status = Status.running) (hres : w.procs.resolved c = true) :
    (issue env c w).status = Status.running ∧ (issue env c w).procs = w.procs ∧
      (issue env c w).calls = w.calls ++ [c] ∧ (issue env c w).log = w.log := by
  unfold issue
  simp only [hrun, hres, ne_eq, not_true_eq_false, if_false, Bool.true_eq_false]
  split
  · exact ⟨rfl, rfl, rfl, rfl⟩
  · cases c <;> exact ⟨rfl, rfl, rfl, rfl⟩

theorem issue_stopped (env : Env) (c : ALCall) (w : World)
    (h : w.status ≠ Status.running) : issue env c w = w := by
  unfold issue
  simp only [h, ne_eq, not_false_eq_true, if_true]

theorem World.apply_alError (w : World) (c : ALCall) : (w.apply c).alError = w.alError := by
  cases c <;> rfl

/-- A step that leaves the program running started from a running program, went
through a non-null pointer, and left the function pointers alone. -/
theorem issue_running_inv (env : Env) (c : ALCall) (w : World)
    (h : (issue env c w).status = Status.running) :
    w.status = Status.running ∧ w.procs.resolved c = true := by
  by_cases hrun : w.status = Status.running
  · refine ⟨hrun, ?_⟩
    by_contra hres
    have hres' : w.procs.resolved c = false := by simpa using hres
    unfold issue at h
    simp [hrun, hres'] at h
  · rw [issue_stopped env c w hrun] at h
    exact absurd h hrun

/-- The error register is only ever cleared by `alGetError`: a pending error
survives a call. -/
theorem issue_alError_of_pending (env : Env) (c : ALCall) (w : World)
    (h : w.alError = true) : (issue env c w).alError = true := by
  unfold issue
  split
  · exact h
  · split
    · exact h
    · split
      · rfl
      · rw [World.apply_alError]; exact h

/-- When the register is clear after a call that went through, the library
accepted the call. -/
theorem issue_accepted_of_clear (env : Env) (c : ALCall) (w : World)
    (hrun : w.status = Status.running) (hres : w.procs.resolved c = true)
    (hclear : (issue env c w).alError = false) :
    env.rejects w.calls c = false ∧
      issue env c w = ({ w with calls := w.calls ++ [c] } : World).apply c := by
  unfold issue at hclear ⊢
  simp only [hrun, hres, ne_eq, not_true_eq_false, if_false, Bool.true_eq_false] at hclear ⊢
  by_cases hr : env.rejects w.calls c = true
  · simp [hr] at hclear
  · simp only [hr, if_false, Bool.false_eq_true] at hclear ⊢
    exact ⟨by simp, trivial⟩

theorem issue_accepting (env : Env) (c : ALCall) (w : World)
    (hrun : w.status = Status.running) (hres : w.procs.resolved c = true)
    (hacc : env.rejects w.calls c = false) :
    issue env c w = ({ w with calls := w.calls ++ [c] } : World).apply c := by
  unfold issue
  simp [hrun, hres, hacc]

theorem issueAll_nil (env : Env) (w : World) : issueAll env [] w = w := rfl

theorem issueAll_cons (env : Env) (c : ALCall) (cs : List ALCall) (w : World) :
    issueAll env (c :: cs) w = issueAll env cs (issue env c w) := rfl

theorem issueAll_of_resolved (env : Env) (cs : List ALCall) (w : World)
    (hrun : w.status = Status.running) (hres : ∀ c ∈ cs, w.procs.resolved c = true) :
    (issueAll env cs w).status = Status.running ∧ (issueAll env cs w).procs = w.procs ∧
      (issueAll env cs w).calls = w.calls ++ cs ∧ (issueAll env cs w).log = w.log := by
  induction cs generalizing w with
  | nil => simp [issueAll_nil, hrun]
  | cons c cs ih =>
    rw [issueAll_cons]
    obtain ⟨h1, h2, h3, h4⟩ := issue_of_resolved env c w hrun (hres c (List.mem_cons_self _ _))
    have hres' : ∀ d ∈ cs, (issue env c w).procs.resolved d = true := by
      intro d hd; rw [h2]; exact hres d (List.mem_cons_of_mem _ hd)
    obtain ⟨g1, g2, g3, g4⟩ := ih (issue env c w) h1 hres'
    refine ⟨g1, g2.trans h2, ?_, g4.trans h4⟩
    rw [g3, h3, List.append_assoc, List.singleton_append]

theorem issueAll_running_inv (env : Env) (cs : List ALCall) (w : World)
    (h : (issueAll env cs w).status = Status.running) :
    w.status = Status.running ∧ ∀ c ∈ cs, w.procs.resolved c = true := by
  induction cs generalizing w with
  | nil => exact ⟨h, fun c hc => absurd hc (List.not_mem_nil c)⟩
  | cons c cs ih =>
    rw [issueAll_cons] at h
    obtain ⟨h1, h2⟩ := ih (issue env c w) h
    obtain ⟨k1, k2⟩ := issue_running_inv env c w h1
    refine ⟨k1, ?_⟩
    intro d hd
    rcases List.mem_cons.mp hd with rfl | hd
    · exact k2
    · have := h2 d hd
      rwa [(issue_of_resolved env c w k1 k2).2.1] at this

/-- With a library that accepts every call, a sequence of calls leaves the error
register as it was. -/
theorem issueAll_accepting_alError (env : Env) (cs : List ALCall) (w : World)
    (hacc : ∀ h c, env.rejects h c = false) :
    (issueAll env cs w).alError = w.alError := by
  induction cs generalizing w with
  | nil => rfl
  | cons c cs ih =>
    rw [issueAll_cons, ih]
    unfold issue
    split
    · rfl
    · split
      · rfl
      · simp only [hacc, Bool.false_eq_true, if_false]
        rw [World.apply_alError]

/-- A call that does not write the effect type leaves every effect type alone. -/
theorem issue_effectType (env : Env) (c : ALCall) (w : World) (e : Nat)
    (hc : isTypeWrite c = false) :
    (issue env c w).effectParam e AL_EFFECT_TYPE
      = w.effectParam e AL_EFFECT_TYPE := by
  unfold issue
  split
  · rfl
  · split
    · rfl
    · split
      · rfl
      · cases c <;>
          simp_all [World.apply, World.effectParam, assocFind, isTypeWrite]

theorem issueAll_effectType (env : Env) (cs : List ALCall) (w : World) (e : Nat)
    (hc : ∀ c ∈ cs, isTypeWrite c = false) :
    (issueAll env cs w).effectParam e AL_EFFECT_TYPE
      = w.effectParam e AL_EFFECT_TYPE := by
  induction cs generalizing w with
  | nil => rfl
  | cons c cs ih =>
    rw [issueAll_cons, ih _ (fun d hd => hc d (List.mem_cons_of_mem _ hd))]
    exact issue_effectType env c w e (hc c (List.mem_cons_self _ _))

theorem query_of_running (c : ALCall) (w : World) (hrun : w.status = Status.running) :
    query c w = { w with calls := w.calls ++ [c] } := by
  unfold query
  simp [hrun]

theorem query_status (c : ALCall) (w : World) : (query c w).status = w.status := by
  unfold query
  split <;> rfl

theorem assertNoError_stopped (w : World) (h : w.status ≠ Status.running) :
    assertNoError w = w := by
  unfold assertNoError
  simp [h]

/-- An assertion that lets the program run on found the register clear. -/
theorem assertNoError_running_inv (w : World)
    (h : (assertNoError w).status = Status.running) :
    w.status = Status.running ∧ w.alError = false ∧
      assertNoError w = { w with calls := w.calls ++ [ALCall.alGetError] } := by
  by_cases hrun : w.status = Status.running
  · refine ⟨hrun, ?_⟩
    unfold assertNoError at h ⊢
    simp only [hrun, ne_eq, not_true_eq_false, if_false] at h ⊢
    by_cases he : w.alError = true
    · simp [he] at h
    · simp only [he, if_false, Bool.false_eq_true]
      exact ⟨by simp, trivial⟩
  · rw [assertNoError_stopped w hrun] at h
    exact absurd h hrun

theorem assertNoError_of_clear (w : World) (hrun : w.status = Status.running)
    (he : w.alError = false) :
    assertNoError w = { w with calls := w.calls ++ [ALCall.alGetError] } := by
  unfold assertNoError
  simp [hrun, he]

theorem assertNoError_facts (w : World) (hrun : w.status = Status.running) :
    (assertNoError w).calls = w.calls ++ [ALCall.alGetError] ∧
      (assertNoError w).log = w.log ∧ (assertNoError w).procs = w.procs ∧
      (assertNoError w).effectParams = w.effectParams ∧
      (assertNoError w).slotParams = w.slotParams := by
  unfold assertNoError
  simp only [hrun, ne_eq, not_true_eq_false, if_false]
  split <;> exact ⟨rfl, rfl, rfl, rfl, rfl⟩

theorem assertNoError_effectParams (w : World) :
    (assertNoError w).effectParams = w.effectParams := by
  unfold assertNoError
  split
  · rfl
  · split <;> rfl

theorem assertNoError_slotParams (w : World) :
    (assertNoError w).slotParams = w.slotParams := by
  unfold assertNoError
  split
  · rfl
  · split <;> rfl

/-! ## Lemmas on `loadPreset` and `setPreset` -/

theorem fieldWrites_true (id : Nat) (p : EFXEAXREVERBPROPERTIES) :
    fieldWrites true id p =
      [.alEffectf id .AL_EAXREVERB_DENSITY p.flDensity,
       .alEffectf id .AL_EAXREVERB_DIFFUSION p.flDiffusion,
       .alEffectf id .AL_EAXREVERB_GAIN p.flGain,
       .alEffectf id .AL_EAXREVERB_GAINHF p.flGainHF,
       .alEffectf id .AL_EAXREVERB_GAINLF p.flGainLF,
       .alEffectf id .AL_EAXREVERB_DECAY_TIME p.flDecayTime,
       .alEffectf id AL_EAXREVERB_DECAY_HFRATIO p.flDecayHFRatio,
       .alEffectf id AL_EAXREVERB_DECAY_LFRATIO p.flDecayLFRatio,
       .alEffectf id .AL_EAXREVERB_REFLECTIONS_GAIN p.flReflectionsGain,
       .alEffectf id .AL_EAXREVERB_REFLECTIONS_DELAY p.flReflectionsDelay,
       .alEffectfv id .AL_EAXREVERB_REFLECTIONS_PAN p.flReflectionsPan,
       .alEffectf id .AL_EAXREVERB_LATE_REVERB_GAIN p.flLateReverbGain,
       .alEffectf id .AL_EAXREVERB_LATE_REVERB_DELAY p.flLateReverbDelay,
       .alEffectfv id .AL_EAXREVERB_LATE_REVERB_PAN p.flLateReverbPan,
       .alEffectf id .AL_EAXREVERB_ECHO_TIME p.flEchoTime,
       .alEffectf id .AL_EAXREVERB_ECHO_DEPTH p.flEchoDepth,
       .alEffectf id .AL_EAXREVERB_MODULATION_TIME p.flModulationTime,
       .alEffectf id .AL_EAXREVERB_MODULATION_DEPTH p.flModulationDepth,
       .alEffectf id .AL_EAXREVERB_AIR_ABSORPTION_GAINHF p.flAirAbsorptionGainHF,
       .alEffectf id .AL_EAXREVERB_HFREFERENCE p.flHFReference,
       .alEffectf id .AL_EAXREVERB_LFREFERENCE p.flLFReference,
       .alEffectf id .AL_EAXREVERB_ROOM_ROLLOFF_FACTOR p.flRoomRolloffFactor,
       .alEffecti id .AL_EAXREVERB_DECAY_HFLIMIT (.int p.iDecayHFLimit)] := rfl

theorem fieldWrites_false (id : Nat) (p : EFXEAXREVERBPROPERTIES) :
    fieldWrites false id p =
      [.alEffectf id .AL_REVERB_DENSITY p.flDensity,
       .alEffectf id .AL_REVERB_DIFFUSION p.flDiffusion,
       .alEffectf id .AL_REVERB_GAIN p.flGain,
       .alEffectf id .AL_REVERB_GAINHF p.flGainHF,
       .alEffectf id .AL_REVERB_DECAY_TIME p.flDecayTime,
       .alEffectf id AL_REVERB_DECAY_HFRATIO p.flDecayHFRatio,
       .alEffectf id .AL_REVERB_REFLECTIONS_GAIN p.flReflectionsGain,
       .alEffectf id .AL_REVERB_REFLECTIONS_DELAY p.flReflectionsDelay,
       .alEffectf id .AL_REVERB_LATE_REVERB_GAIN p.flLateReverbGain,
       .alEffectf id .AL_REVERB_LATE_REVERB_DELAY p.flLateReverbDelay,
       .alEffectf id .AL_REVERB_AIR_ABSORPTION_GAINHF p.flAirAbsorptionGainHF,
       .alEffectf id .AL_REVERB_ROOM_ROLLOFF_FACTOR p.flRoomRolloffFactor,
       .alEffecti id .AL_REVERB_DECAY_HFLIMIT (.int p.iDecayHFLimit)] := rfl

/-- The body of `loadPreset` is the type write and the model's field writes in
order, then the slot bind and the assertion. -/
theorem loadPreset_eq (env : Env) (self : SoundEffect) (p : EFXEAXREVERBPROPERTIES)
    (w : World) :
    self.loadPreset env p w =
      (self, assertNoError (issue env (slotBind self.m_effectSlot self.m_effectId)
        (issueAll env
          (typeWrite env.eax self.m_effectId :: fieldWrites env.eax self.m_effectId p)
          (query (.alGetEnumValue "AL_EFFECT_EAXREVERB") w)))) := by
  unfold SoundEffect.loadPreset
  by_cases h : env.alGetEnumValue "AL_EFFECT_EAXREVERB" = 0
  · have he : env.eax = false := by simp [Env.eax, h]
    rw [he, fieldWrites_false]
    simp only [h, ne_eq, not_true_eq_false, if_false, issueAll, List.foldl, alEffecti,
      alEffectf, alEffectfv, alAuxiliaryEffectSloti, typeWrite, modelType, slotBind,
      Bool.false_eq_true]
  · have he : env.eax = true := by simp [Env.eax, h]
    rw [he, fieldWrites_true]
    simp only [h, ne_eq, not_false_eq_true, if_true, issueAll, List.foldl, alEffecti,
      alEffectf, alEffectfv, alAuxiliaryEffectSloti, typeWrite, modelType, slotBind]

theorem setterCall_resolved (procs : EfxProcs) (hp : procs.loadReady) (e : Nat)
    (t : ALenum) (v : ALValue) : procs.resolved (setterCall e t v) = true := by
  obtain ⟨h1, h2, h3, _⟩ := hp
  cases v <;> simp [setterCall, EfxProcs.resolved, h1, h2, h3]

theorem setterCall_isTypeWrite (e : Nat) (t : ALenum) (v : ALValue) :
    isTypeWrite (setterCall e t v) = decide (t = AL_EFFECT_TYPE) := by
  cases v <;> rfl

theorem modelToken_ne_type (eax : Bool) (f : PresetField) :
    modelToken eax f ≠ AL_EFFECT_TYPE := by
  cases eax <;> cases f <;> decide

theorem loadWrites_resolved (procs : EfxProcs) (hp : procs.loadReady) (eax : Bool)
    (e : Nat) (p : EFXEAXREVERBPROPERTIES) :
    ∀ c ∈ typeWrite eax e :: fieldWrites eax e p, procs.resolved c = true := by
  intro c hc
  rcases List.mem_cons.mp hc with rfl | hc
  · exact hp.1
  · obtain ⟨f, _, rfl⟩ := List.mem_map.mp hc
    exact setterCall_resolved procs hp _ _ _

theorem fieldWrites_not_typeWrite (eax : Bool) (e : Nat) (p : EFXEAXREVERBPROPERTIES) :
    ∀ c ∈ fieldWrites eax e p, isTypeWrite c = false := by
  intro c hc
  obtain ⟨f, _, rfl⟩ := List.mem_map.mp hc
  rw [setterCall_isTypeWrite]
  exact decide_eq_false (modelToken_ne_type eax f)

/-- The trace of a load whose calls all go through resolved entry points. -/
theorem loadPreset_trace_of_resolved (env : Env) (self : SoundEffect)
    (p : EFXEAXREVERBPROPERTIES) (w : World) (hrun : w.status = Status.running)
    (hres : ∀ c ∈ typeWrite env.eax self.m_effectId :: fieldWrites env.eax self.m_effectId p,
      w.procs.resolved c = true)
    (hbind : w.procs.alAuxiliaryEffectSloti = true) :
    (self.loadPreset env p w).1 = self ∧
      (self.loadPreset env p w).2.calls
        = w.calls ++ loadCalls env.eax self.m_effectId self.m_effectSlot p ∧
      (self.loadPreset env p w).2.log = w.log ∧
      (self.loadPreset env p w).2.procs = w.procs := by
  rw [loadPreset_eq]
  have hq := query_of_running (.alGetEnumValue "AL_EFFECT_EAXREVERB") w hrun
  have hq1 : (query (.alGetEnumValue "AL_EFFECT_EAXREVERB") w).status = Status.running := by
    rw [query_status]; exact hrun
  have hq2 : (query (.alGetEnumValue "AL_EFFECT_EAXREVERB") w).procs = w.procs := by
    rw [hq]
  obtain ⟨a1, a2, a3, a4⟩ := issueAll_of_resolved env
    (typeWrite env.eax self.m_effectId :: fieldWrites env.eax self.m_effectId p) _ hq1
    (by rw [hq2]; exact hres)
  obtain ⟨b1, b2, b3, b4⟩ := issue_of_resolved env
    (slotBind self.m_effectSlot self.m_effectId) _ a1 (by rw [a2, hq2]; exact hbind)
  obtain ⟨c1, c2, c3, _, _⟩ := assertNoError_facts _ b1
  refine ⟨rfl, ?_, ?_, ?_⟩
  · show (assertNoError _).calls = _
    rw [c1, b3, a3, hq]
    simp [loadCalls]
  · show (assertNoError _).log = _
    rw [c2, b4, a4, hq]
  · show (assertNoError _).procs = _
    rw [c3, b2, a2, hq2]

/-- The trace of a load with the four entry points of `loadPreset` resolved. -/
theorem loadPreset_trace (env : Env) (self : SoundEffect) (p : EFXEAXREVERBPROPERTIES)
    (w : World) (hrun : w.status = Status.running) (hp : w.procs.loadReady) :
    (self.loadPreset env p w).1 = self ∧
      (self.loadPreset env p w).2.calls
        = w.calls ++ loadCalls env.eax self.m_effectId self.m_effectSlot p ∧
      (self.loadPreset env p w).2.log = w.log ∧
      (self.loadPreset env p w).2.procs = w.procs :=
  loadPreset_trace_of_resolved env self p w hrun
    (loadWrites_resolved w.procs hp _ _ _) hp.2.2.2

/-- A load that leaves the program running started from a running program and went
through resolved entry points only; its last call found the error register clear. -/
theorem loadPreset_running_inv (env : Env) (self : SoundEffect)
    (p : EFXEAXREVERBPROPERTIES) (w : World)
    (h : (self.loadPreset env p w).2.status = Status.running) :
    w.status = Status.running ∧
      (∀ c ∈ typeWrite env.eax self.m_effectId :: fieldWrites env.eax self.m_effectId p,
        w.procs.resolved c = true) ∧
      w.procs.alAuxiliaryEffectSloti = true := by
  rw [loadPreset_eq] at h
  obtain ⟨h1, _, _⟩ := assertNoError_running_inv _ h
  obtain ⟨h2, h3⟩ := issue_running_inv env _ _ h1
  obtain ⟨h4, h5⟩ := issueAll_running_inv env _ _ h2
  have hrun : w.status = Status.running := by
    rw [query_status] at h4; exact h4
  have hq := query_of_running (.alGetEnumValue "AL_EFFECT_EAXREVERB") w hrun
  have hq2 : (query (.alGetEnumValue "AL_EFFECT_EAXREVERB") w).procs = w.procs := by
    rw [hq]
  refine ⟨hrun, ?_, ?_⟩
  · intro c hc
    have := h5 c hc
    rwa [hq2] at this
  · have a2 := (issueAll_of_resolved env _ _ h4 h5).2.1
    rw [a2, hq2] at h3
    exact h3

/-- After a load that leaves the program running, the slot targets the effect. -/
theorem loadPreset_slotTarget (env : Env) (self : SoundEffect)
    (p : EFXEAXREVERBPROPERTIES) (w : World)
    (h : (self.loadPreset env p w).2.status = Status.running)
    (hid : self.m_effectId < 4294967296) :
    (self.loadPreset env p w).2.slotTarget self.m_effectSlot = some self.m_effectId := by
  rw [loadPreset_eq] at h ⊢
  obtain ⟨h1, h1e, _⟩ := assertNoError_running_inv _ h
  obtain ⟨h2, h3⟩ := issue_running_inv env _ _ h1
  obtain ⟨_, hstep⟩ := issue_accepted_of_clear env _ _ h2 h3 h1e
  show Option.map ALuintOfInt (assocFind _ (assertNoError _).slotParams) = _
  rw [assertNoError_slotParams, hstep]
  simp [slotBind, World.apply, assocFind, ALuintOfInt_ALintCast _ hid]

/-- With a library that accepts every call and no pending error, a load leaves the
program running and the register clear. -/
theorem loadPreset_accepting (env : Env) (self : SoundEffect)
    (p : EFXEAXREVERBPROPERTIES) (w : World) (hrun : w.status = Status.running)
    (hp : w.procs.loadReady) (hacc : ∀ h c, env.rejects h c = false)
    (herr : w.alError = false) :
    (self.loadPreset env p w).2.status = Status.running ∧
      (self.loadPreset env p w).2.alError = false := by
  rw [loadPreset_eq]
  have hq := query_of_running (.alGetEnumValue "AL_EFFECT_EAXREVERB") w hrun
  have hq1 : (query (.alGetEnumValue "AL_EFFECT_EAXREVERB") w).status = Status.running := by
    rw [query_status]; exact hrun
  have hq2 : (query (.alGetEnumValue "AL_EFFECT_EAXREVERB") w).procs = w.procs := by
    rw [hq]
  have hq3 : (query (.alGetEnumValue "AL_EFFECT_EAXREVERB") w).alError = false := by
    rw [hq]; exact herr
  obtain ⟨a1, a2, _, _⟩ := issueAll_of_resolved env
    (typeWrite env.eax self.m_effectId :: fieldWrites env.eax self.m_effectId p) _ hq1
    (by rw [hq2]; exact loadWrites_resolved w.procs hp _ _ _)
  have a5 := issueAll_accepting_alError env
    (typeWrite env.eax self.m_effectId :: fieldWrites env.eax self.m_effectId p)
    (query (.alGetEnumValue "AL_EFFECT_EAXREVERB") w) hacc
  obtain ⟨b1, _, _, _⟩ := issue_of_resolved env
    (slotBind self.m_effectSlot self.m_effectId) _ a1 (by rw [a2, hq2]; exact hp.2.2.2)
  have b5 := issueAll_accepting_alError env [slotBind self.m_effectSlot self.m_effectId]
    (issueAll env
      (typeWrite env.eax self.m_effectId :: fieldWrites env.eax self.m_effectId p)
      (query (.alGetEnumValue "AL_EFFECT_EAXREVERB") w)) hacc
  rw [issueAll_cons, issueAll_nil, a5, hq3] at b5
  show (assertNoError _).status = _ ∧ (assertNoError _).alError = _
  rw [assertNoError_of_clear _ b1 b5]
  exact ⟨b1, b5⟩

/-- After a load whose type write the library accepted, the effect object holds the
type token of the model. -/
theorem loadPreset_effectType (env : Env) (self : SoundEffect)
    (p : EFXEAXREVERBPROPERTIES) (w : World) (hrun : w.status = Status.running)
    (hp : w.procs.loadReady)
    (hacc : env.rejects (w.calls ++ [.alGetEnumValue "AL_EFFECT_EAXREVERB"])
      (typeWrite env.eax self.m_effectId) = false) :
    (self.loadPreset env p w).2.effectParam self.m_effectId AL_EFFECT_TYPE
      = some (ALValue.i (ALintArg.token (modelType env.eax))) := by
  rw [loadPreset_eq]
  have hq := query_of_running (.alGetEnumValue "AL_EFFECT_EAXREVERB") w hrun
  show assocFind _ (assertNoError _).effectParams = _
  rw [assertNoError_effectParams]
  show World.effectParam _ _ _ = _
  rw [issue_effectType env (slotBind self.m_effectSlot self.m_effectId) _ _ rfl, issueAll_cons,
    issueAll_effectType _ _ _ _ (fieldWrites_not_typeWrite _ _ _)]
  have hstep := issue_accepting env (typeWrite env.eax self.m_effectId)
    (query (.alGetEnumValue "AL_EFFECT_EAXREVERB") w) (by rw [query_status]; exact hrun)
    (by rw [hq]; exact hp.1) (by rw [hq]; exact hacc)
  rw [hstep]
  simp [typeWrite, World.apply, World.effectParam, assocFind]

theorem setPreset_of_found (env : Env) (self : SoundEffect) (presetName : String)
    (p : EFXEAXREVERBPROPERTIES) (w : World) (h : self.find presetName = some p) :
    self.setPreset env presetName w = self.loadPreset env p w := by
  unfold SoundEffect.setPreset
  rw [h]

theorem setPreset_of_missing (env : Env) (self : SoundEffect) (presetName : String)
    (w : World) (h : self.find presetName = none) :
    self.setPreset env presetName w =
      (self, g_logger_error
        (std_format "Could not find preset matching: %s\n" [presetName]) w) := by
  unfold SoundEffect.setPreset
  rw [h]

/-- The text `setPreset` builds for a missing name does not depend on the name. -/
theorem missing_message (presetName : String) :
    std_format "Could not find preset matching: %s\n" [presetName]
      = "Could not find preset matching: %s\n" := by
  rfl

/-! ## Lemmas on the constructor and the destructor -/

theorem loadProcs_of_running (env : Env) (w : World) (hrun : w.status = Status.running) :
    loadProcs env w =
      { w with calls := w.calls ++ procNames.map ALCall.alGetProcAddress,
               procs := env.loadedProcs } := by
  unfold loadProcs LOAD_PROC
  simp [hrun, procNames, Env.loadedProcs]

theorem generate_running_inv (env : Env) (c : ALCall) (out : Nat) (w : World)
    (h : (generate env c out w).2.status = Status.running) :
    w.status = Status.running ∧ w.procs.resolved c = true := by
  unfold generate at h
  by_cases hrun : w.status = Status.running
  · refine ⟨hrun, ?_⟩
    by_contra hres
    have hres' : w.procs.resolved c = false := by simpa using hres
    simp [hrun, hres'] at h
  · simp [hrun] at h

/-- A generation call that went through and left the register clear produced a name. -/
theorem generate_of_clear (env : Env) (c : ALCall) (out : Nat) (w : World)
    (hrun : w.status = Status.running) (hres : w.procs.resolved c = true)
    (hclear : (generate env c out w).2.alError = false) :
    ∃ n, env.genName (w.calls ++ [c]) = some n ∧
      generate env c out w = (n, { w with calls := w.calls ++ [c] }) := by
  unfold generate at hclear ⊢
  simp only [hrun, hres, ne_eq, not_true_eq_false, if_false, Bool.true_eq_false] at hclear ⊢
  cases hg : env.genName (w.calls ++ [c]) with
  | none => simp [hg] at hclear
  | some n => exact ⟨n, rfl, rfl⟩

theorem generate_of_some (env : Env) (c : ALCall) (out : Nat) (w : World)
    (hrun : w.status = Status.running) (hres : w.procs.resolved c = true) (n : Nat)
    (hg : env.genName (w.calls ++ [c]) = some n) :
    generate env c out w = (n, { w with calls := w.calls ++ [c] }) := by
  unfold generate
  simp [hrun, hres, hg]

/-- The output of a generation call is the old content or a 32-bit name. -/
theorem generate_fst_lt (env : Env) (c : ALCall) (out : Nat) (w : World)
    (hout : out < 4294967296) : (generate env c out w).1 < 4294967296 := by
  unfold generate
  split
  · exact hout
  · split
    · exact hout
    · split
      · next n hn => exact (env.genName_range _ n hn).2
      · exact hout

theorem ctor_eq (env : Env) (device : Nat) (w : World) (hrun : w.status = Status.running) :
    SoundEffect.ctor env device w =
      SoundEffect.queryEffectExtension env ⟨device, 0, 0, env.catalog⟩
        { w with calls := w.calls ++ procNames.map ALCall.alGetProcAddress,
                 procs := env.loadedProcs } := by
  unfold SoundEffect.ctor Env.catalog
  rw [loadProcs_of_running env w hrun]

/-- The constructor on a device without the extension. -/
theorem ctor_absent (env : Env) (device : Nat) (w : World)
    (hrun : w.status = Status.running)
    (habs : env.alcIsExtensionPresent device "ALC_EXT_EFX" = false) :
    SoundEffect.ctor env device w =
      (⟨device, 0, 0, env.catalog⟩,
        assertNoError (g_logger_error
          (env.stdext_format "unable to locate OpenAl EFX extension")
          { w with calls := w.calls ++ ctorQueries device, procs := env.loadedProcs })) := by
  rw [ctor_eq env device w hrun]
  unfold SoundEffect.queryEffectExtension
  simp [query, hrun, habs, ctorQueries]

/-- The constructor with the extension present and `alGenEffects` unresolved. -/
theorem ctor_unloaded (env : Env) (device : Nat) (w : World)
    (hrun : w.status = Status.running)
    (hext : env.alcIsExtensionPresent device "ALC_EXT_EFX" = true)
    (hgen : env.alGetProcAddress "alGenEffects" = false) :
    SoundEffect.ctor env device w =
      (⟨device, 0, 0, env.catalog⟩,
        g_logger_error (env.stdext_format "unable to load OpenAl EFX extension")
          { w with calls := w.calls ++ ctorQueries device, procs := env.loadedProcs }) := by
  rw [ctor_eq env device w hrun]
  unfold SoundEffect.queryEffectExtension
  simp [query, hrun, hext, hgen, ctorQueries, Env.loadedProcs]

/-- The constructor with the extension present and `alGenEffects` resolved. -/
theorem ctor_loaded (env : Env) (device : Nat) (w : World)
    (hrun : w.status = Status.running)
    (hext : env.alcIsExtensionPresent device "ALC_EXT_EFX" = true)
    (hgen : env.alGetProcAddress "alGenEffects" = true) :
    SoundEffect.ctor env device w =
      (⟨device,
        (generate env (ALCall.alGenEffects 1) 0
          { w with calls := w.calls ++ ctorQueries device, procs := env.loadedProcs }).1,
        (generate env (ALCall.alGenAuxiliaryEffectSlots 1) 0
          (generate env (ALCall.alGenEffects 1) 0
            { w with calls := w.calls ++ ctorQueries device,
                     procs := env.loadedProcs }).2).1,
        env.catalog⟩,
       assertNoError (assertNoError (issue env
         (slotBind
           (generate env (ALCall.alGenAuxiliaryEffectSlots 1) 0
             (generate env (ALCall.alGenEffects 1) 0
               { w with calls := w.calls ++ ctorQueries device,
                        procs := env.loadedProcs }).2).1
           (generate env (ALCall.alGenEffects 1) 0
             { w with calls := w.calls ++ ctorQueries device,
                      procs := env.loadedProcs }).1)
         (generate env (ALCall.alGenAuxiliaryEffectSlots 1) 0
           (generate env (ALCall.alGenEffects 1) 0
             { w with calls := w.calls ++ ctorQueries device,
                      procs := env.loadedProcs }).2).2))) := by
  rw [ctor_eq env device w hrun]
  unfold SoundEffect.queryEffectExtension
  simp [query, hrun, hext, hgen, ctorQueries, Env.loadedProcs, alAuxiliaryEffectSloti, slotBind]

/-! ## Lemmas on whole runs -/

theorem setPreset_fst (env : Env) (self : SoundEffect) (presetName : String) (w : World) :
    (self.setPreset env presetName w).1 = self := by
  unfold SoundEffect.setPreset
  split
  · rw [loadPreset_eq]
  · rfl

theorem g_logger_error_status (msg : String) (w : World) :
    (g_logger_error msg w).status = w.status := by
  unfold g_logger_error
  split <;> rfl

theorem g_logger_error_slotParams (msg : String) (w : World) :
    (g_logger_error msg w).slotParams = w.slotParams := by
  unfold g_logger_error
  split <;> rfl

/-- A `setPreset` that leaves the program running started from a running program. -/
theorem setPreset_running_inv (env : Env) (self : SoundEffect) (presetName : String)
    (w : World) (h : (self.setPreset env presetName w).2.status = Status.running) :
    w.status = Status.running := by
  unfold SoundEffect.setPreset at h
  split at h
  · exact (loadPreset_running_inv env self _ w h).1
  · rw [g_logger_error_status] at h
    exact h

/-- If the slot targets the effect before a `setPreset` that leaves the program
running, it does so afterwards. -/
theorem setPreset_slotTarget (env : Env) (self : SoundEffect) (presetName : String)
    (w : World) (h : (self.setPreset env presetName w).2.status = Status.running)
    (hid : self.m_effectId < 4294967296)
    (hbefore : w.slotTarget self.m_effectSlot = some self.m_effectId) :
    (self.setPreset env presetName w).2.slotTarget self.m_effectSlot
      = some self.m_effectId := by
  unfold SoundEffect.setPreset at h ⊢
  split at h
  · exact loadPreset_slotTarget env self _ w h hid
  · show Option.map ALuintOfInt (assocFind _ (g_logger_error _ w).slotParams) = _
    rw [g_logger_error_slotParams]
    exact hbefore

/-- The constructor leaves a 32-bit value in `m_effectId`. -/
theorem ctor_effectId_lt (env : Env) (device : Nat) (w : World)
    (hrun : w.status = Status.running) :
    (SoundEffect.ctor env device w).1.m_effectId < 4294967296 := by
  by_cases hext : env.alcIsExtensionPresent device "ALC_EXT_EFX" = true
  · by_cases hgen : env.alGetProcAddress "alGenEffects" = true
    · rw [ctor_loaded env device w hrun hext hgen]
      exact generate_fst_lt env _ 0 _ (by decide)
    · rw [ctor_unloaded env device w hrun hext (by simpa using hgen)]
      show (0 : Nat) < 4294967296
      decide
  · rw [ctor_absent env device w hrun (by simpa using hext)]
    show (0 : Nat) < 4294967296
    decide

/-- Lines 114-120: when the slot allocation, the bind and the two assertions leave
the program running, the slot name is non-zero and the slot targets the effect. -/
theorem bind_after_generate (env : Env) (e : Nat) (w1 : World) (he : e < 4294967296)
    (hok : (assertNoError (assertNoError (issue env
      (slotBind (generate env (ALCall.alGenAuxiliaryEffectSlots 1) 0 w1).1 e)
      (generate env (ALCall.alGenAuxiliaryEffectSlots 1) 0 w1).2))).status
        = Status.running) :
    (generate env (ALCall.alGenAuxiliaryEffectSlots 1) 0 w1).1 ≠ 0 ∧
      (assertNoError (assertNoError (issue env
        (slotBind (generate env (ALCall.alGenAuxiliaryEffectSlots 1) 0 w1).1 e)
        (generate env (ALCall.alGenAuxiliaryEffectSlots 1) 0 w1).2))).slotTarget
          (generate env (ALCall.alGenAuxiliaryEffectSlots 1) 0 w1).1 = some e := by
  obtain ⟨k1, _, _⟩ := assertNoError_running_inv _ hok
  obtain ⟨k2, k2e, _⟩ := assertNoError_running_inv _ k1
  obtain ⟨k3, k3r⟩ := issue_running_inv env _ _ k2
  obtain ⟨_, hstep⟩ := issue_accepted_of_clear env _ _ k3 k3r k2e
  have hclear : (generate env (ALCall.alGenAuxiliaryEffectSlots 1) 0 w1).2.alError
      = false := by
    by_contra hne
    have hp : (generate env (ALCall.alGenAuxiliaryEffectSlots 1) 0 w1).2.alError
        = true := by simpa using hne
    have := issue_alError_of_pending env
      (slotBind (generate env (ALCall.alGenAuxiliaryEffectSlots 1) 0 w1).1 e) _ hp
    rw [this] at k2e
    exact absurd k2e (by decide)
  obtain ⟨g1, g2⟩ := generate_running_inv env _ _ _ k3
  obtain ⟨n, hn, hgen2⟩ := generate_of_clear env _ 0 w1 g1 g2 hclear
  have hnpos := (env.genName_range _ n hn).1
  show _ ∧ Option.map ALuintOfInt
    (assocFind _ (assertNoError (assertNoError _)).slotParams) = _
  rw [assertNoError_slotParams, assertNoError_slotParams, hstep, hgen2]
  constructor
  · show n ≠ 0
    omega
  · simp [slotBind, World.apply, assocFind, ALuintOfInt_ALintCast _ he]

/-- When the constructor returns with the program running and a non-zero effect
name, the slot name is non-zero and the slot targets the effect. -/
theorem ctor_slot_bound (env : Env) (device : Nat) (w : World)
    (hrun : w.status = Status.running)
    (hok : (SoundEffect.ctor env device w).2.status = Status.running)
    (hid : (SoundEffect.ctor env device w).1.m_effectId ≠ 0) :
    (SoundEffect.ctor env device w).1.m_effectSlot ≠ 0 ∧
      (SoundEffect.ctor env device w).2.slotTarget
          (SoundEffect.ctor env device w).1.m_effectSlot
        = some (SoundEffect.ctor env device w).1.m_effectId := by
  have hlt := ctor_effectId_lt env device w hrun
  by_cases hext : env.alcIsExtensionPresent device "ALC_EXT_EFX" = true
  · by_cases hgen : env.alGetProcAddress "alGenEffects" = true
    · rw [ctor_loaded env device w hrun hext hgen] at hok hlt ⊢
      exact bind_after_generate env _ _ hlt hok
    · rw [ctor_unloaded env device w hrun hext (by simpa using hgen)] at hid
      exact absurd rfl hid
  · rw [ctor_absent env device w hrun (by simpa using hext)] at hid
    exact absurd rfl hid

/-- The invariant of the reachable states. -/
theorem reachable_invariant (env : Env) (st : SoundEffect × World)
    (h : Reachable env st) :
    st.1.m_effectId < 4294967296 ∧
      (st.2.status = Status.running → st.1.m_effectId ≠ 0 →
        st.1.m_effectSlot ≠ 0 ∧ st.2.slotTarget st.1.m_effectSlot = some st.1.m_effectId) := by
  induction h with
  | ctor device w hrun =>
    exact ⟨ctor_effectId_lt env device w hrun, ctor_slot_bound env device w hrun⟩
  | setPreset st presetName _ ih =>
    obtain ⟨ih1, ih2⟩ := ih
    have hfst := setPreset_fst env st.1 presetName st.2
    rw [hfst]
    refine ⟨ih1, ?_⟩
    intro hok hid
    have hbefore := ih2 (setPreset_running_inv env st.1 presetName st.2 hok) hid
    exact ⟨hbefore.1, setPreset_slotTarget env st.1 presetName st.2 hok ih1 hbefore.2⟩

theorem capable_loadedProcs (env : Env) (device : Nat) (hcap : env.capable device) :
    env.loadedProcs = EfxProcs.const true := by
  obtain ⟨_, hp, _, _⟩ := hcap
  simp only [procNames, List.forall_mem_cons, List.not_mem_nil, false_implies,
    implies_true, and_true] at hp
  simp [Env.loadedProcs, EfxProcs.const, hp]

/-- Lines 113-120 with a library that allocates and accepts every call. -/
theorem alloc_capable (env : Env) (w2 : World) (hrun : w2.status = Status.running)
    (hp : w2.procs = EfxProcs.const true) (herr : w2.alError = false)
    (hgen : ∀ h, env.genName h ≠ none) (hacc : ∀ h c, env.rejects h c = false) :
    ∃ id slot, id ≠ 0 ∧
      (generate env (ALCall.alGenEffects 1) 0 w2).1 = id ∧
      (generate env (ALCall.alGenAuxiliaryEffectSlots 1) 0
        (generate env (ALCall.alGenEffects 1) 0 w2).2).1 = slot ∧
      (assertNoError (assertNoError (issue env (slotBind slot id)
        (generate env (ALCall.alGenAuxiliaryEffectSlots 1) 0
          (generate env (ALCall.alGenEffects 1) 0 w2).2).2))).calls
        = w2.calls ++ ctorAllocCalls id slot ∧
      (assertNoError (assertNoError (issue env (slotBind slot id)
        (generate env (ALCall.alGenAuxiliaryEffectSlots 1) 0
          (generate env (ALCall.alGenEffects 1) 0 w2).2).2))).status = Status.running ∧
      (assertNoError (assertNoError (issue env (slotBind slot id)
        (generate env (ALCall.alGenAuxiliaryEffectSlots 1) 0
          (generate env (ALCall.alGenEffects 1) 0 w2).2).2))).alError = false ∧
      (assertNoError (assertNoError (issue env (slotBind slot id)
        (generate env (ALCall.alGenAuxiliaryEffectSlots 1) 0
          (generate env (ALCall.alGenEffects 1) 0 w2).2).2))).procs = EfxProcs.const true ∧
      (assertNoError (assertNoError (issue env (slotBind slot id)
        (generate env (ALCall.alGenAuxiliaryEffectSlots 1) 0
          (generate env (ALCall.alGenEffects 1) 0 w2).2).2))).log = w2.log := by
  cases hg1 : env.genName (w2.calls ++ [ALCall.alGenEffects 1]) with
  | none => exact absurd hg1 (hgen _)
  | some id =>
    cases hg2 : env.genName
        (w2.calls ++ [ALCall.alGenEffects 1] ++ [ALCall.alGenAuxiliaryEffectSlots 1]) with
    | none => exact absurd hg2 (hgen _)
    | some slot =>
      have hid := (env.genName_range _ id hg1).1
      have e1 : generate env (ALCall.alGenEffects 1) 0 w2
          = (id, { w2 with calls := w2.calls ++ [ALCall.alGenEffects 1] }) :=
        generate_of_some env (ALCall.alGenEffects 1) 0 w2 hrun (by rw [hp]; rfl) id hg1
      have e2 : generate env (ALCall.alGenAuxiliaryEffectSlots 1) 0
            ({ w2 with calls := w2.calls ++ [ALCall.alGenEffects 1] } : World)
          = (slot, { w2 with calls := w2.calls ++ [ALCall.alGenEffects 1]
                        ++ [ALCall.alGenAuxiliaryEffectSlots 1] }) :=
        generate_of_some env (ALCall.alGenAuxiliaryEffectSlots 1) 0
          ({ w2 with calls := w2.calls ++ [ALCall.alGenEffects 1] } : World) hrun
          (by show w2.procs.resolved _ = true; rw [hp]; rfl) slot hg2
      refine ⟨id, slot, by omega, ?_, ?_, ?_⟩
      · rw [e1]
      · rw [e1, e2]
      · rw [e1, e2]
        simp [issue, assertNoError, hrun, hp, herr, hacc, EfxProcs.resolved,
          EfxProcs.const, World.apply, slotBind, ctorAllocCalls]

/-- The constructor on a capable device, from a running program without pending
error. -/
theorem ctor_capable (env : Env) (device : Nat) (w : World) (hcap : env.capable device)
    (hrun : w.status = Status.running) (herr : w.alError = false) :
    ∃ id slot, id ≠ 0 ∧
      (SoundEffect.ctor env device w).1 = ⟨device, id, slot, env.catalog⟩ ∧
      (SoundEffect.ctor env device w).2.calls
        = w.calls ++ ctorQueries device ++ ctorAllocCalls id slot ∧
      (SoundEffect.ctor env device w).2.status = Status.running ∧
      (SoundEffect.ctor env device w).2.alError = false ∧
      (SoundEffect.ctor env device w).2.procs = EfxProcs.const true ∧
      (SoundEffect.ctor env device w).2.log = w.log := by
  have hprocs := capable_loadedProcs env device hcap
  have hgenp : env.alGetProcAddress "alGenEffects" = true :=
    hcap.2.1 _ (by simp [procNames])
  rw [ctor_loaded env device w hrun hcap.1 hgenp]
  obtain ⟨id, slot, h0, h1, h2, h3, h4, h5, h6, h7⟩ := alloc_capable env
    ({ w with calls := w.calls ++ ctorQueries device, procs := env.loadedProcs } : World)
    hrun hprocs herr hcap.2.2.1 hcap.2.2.2
  refine ⟨id, slot, h0, ?_, ?_, ?_, ?_, ?_, ?_⟩
  · rw [h1, h2]
  · rw [h1, h2]; exact h3
  · rw [h1, h2]; exact h4
  · rw [h1, h2]; exact h5
  · rw [h1, h2]; exact h6
  · rw [h1, h2]; exact h7

theorem const_true_loadReady : (EfxProcs.const true).loadReady := by decide

theorem catalog_find_room (env : Env) (self : SoundEffect) (h : self.m_presets = env.catalog) :
    self.find "room" = some env.EFX_REVERB_PRESET_ROOM := by
  simp [SoundEffect.find, h, Env.catalog, assocFind]

theorem catalog_find_underWater (env : Env) (self : SoundEffect)
    (h : self.m_presets = env.catalog) :
    self.find "underWater" = some env.EFX_REVERB_PRESET_UNDERWATER := by
  simp [SoundEffect.find, h, Env.catalog, assocFind]

theorem loadCalls_countP_isFieldWrite (eax : Bool) (e s : Nat)
    (p : EFXEAXREVERBPROPERTIES) :
    (loadCalls eax e s p).countP isFieldWrite = if eax then 23 else 13 := by
  cases eax <;> rfl

theorem loadCalls_countP_isDelete (eax : Bool) (e s : Nat) (p : EFXEAXREVERBPROPERTIES) :
    (loadCalls eax e s p).countP isDelete = 0 := by
  cases eax <;> rfl

/-- The destructor of an instance with a non-zero effect name, with a library that
accepts every call. -/
theorem dtor_capable (env : Env) (self : SoundEffect) (w : World)
    (hid : self.m_effectId ≠ 0) (hrun : w.status = Status.running)
    (hp : w.procs = EfxProcs.const true) (herr : w.alError = false)
    (hacc : ∀ h c, env.rejects h c = false) :
    (self.dtor env w).calls = w.calls ++ dtorCalls self.m_effectId self.m_effectSlot ∧
      (self.dtor env w).log = w.log ∧ (self.dtor env w).status = Status.running := by
  unfold SoundEffect.dtor
  rw [if_pos hid]
  simp [alDeleteEffects, alDeleteAuxiliaryEffectSlots, issue, assertNoError, hrun, hp,
    herr, hacc, EfxProcs.resolved, EfxProcs.const, World.apply, dtorCalls]

theorem eaxEnv_capable : eaxEnv.capable 1 :=
  ⟨rfl, fun _ _ => rfl, fun _ => by simp [eaxEnv, sampleEnv], fun _ _ => rfl⟩

theorem standardEnv_capable : standardEnv.capable 1 :=
  ⟨rfl, fun _ _ => rfl, fun _ => by simp [standardEnv, sampleEnv], fun _ _ => rfl⟩

/-! ## Runs that differ only in the handles -/

theorem resolved_eraseHandles (procs : EfxProcs) (c : ALCall) :
    procs.resolved (eraseHandles c) = procs.resolved c := by
  cases c <;> rfl

theorem World.apply_frame (w : World) (c : ALCall) :
    (w.apply c).status = w.status ∧ (w.apply c).procs = w.procs ∧
      (w.apply c).log = w.log ∧ (w.apply c).calls = w.calls := by
  cases c <;> exact ⟨rfl, rfl, rfl, rfl⟩

/-- What a call through a function pointer does to status, pointers, log and trace
does not depend on the library's verdict. -/
theorem issue_frame (env : Env) (c : ALCall) (w : World) :
    (issue env c w).procs = w.procs ∧ (issue env c w).log = w.log ∧
      (issue env c w).status
        = (if w.status ≠ Status.running then w.status
           else if w.procs.resolved c = false then Status.nullCall else Status.running) ∧
      (issue env c w).calls
        = (if w.status ≠ Status.running then w.calls
           else if w.procs.resolved c = false then w.calls else w.calls ++ [c]) := by
  by_cases hrun : w.status = Status.running
  · by_cases hres : w.procs.resolved c = true
    · obtain ⟨a1, a2, a3, a4⟩ := issue_of_resolved env c w hrun hres
      rw [a1, a2, a3, a4]
      simp [hrun, hres]
    · have hres' : w.procs.resolved c = false := by simpa using hres
      unfold issue
      simp [hrun, hres']
  · rw [issue_stopped env c w hrun]
    simp [hrun]

theorem issue_sameUpToHandles (env : Env) (c1 c2 : ALCall) (w1 w2 : World)
    (hc : eraseHandles c1 = eraseHandles c2) (h : w1.sameUpToHandles w2) :
    (issue env c1 w1).sameUpToHandles (issue env c2 w2) := by
  obtain ⟨h1, h2, h3, h4⟩ := h
  obtain ⟨a1, a2, a3, a4⟩ := issue_frame env c1 w1
  obtain ⟨b1, b2, b3, b4⟩ := issue_frame env c2 w2
  have hres : w1.procs.resolved c1 = w2.procs.resolved c2 := by
    rw [← resolved_eraseHandles w1.procs c1, ← resolved_eraseHandles w2.procs c2, hc, h2]
  refine ⟨?_, ?_, ?_, ?_⟩
  · rw [a3, b3, h1, hres]
  · rw [a1, b1, h2]
  · rw [a2, b2, h3]
  · rw [a4, b4, h1, hres]
    by_cases hrun : w2.status = Status.running
    · by_cases hr : w2.procs.resolved c2 = false
      · simp [hrun, hr, h4]
      · simp [hrun, hr, h4, hc]
    · simp [hrun, h4]

theorem issueAll_sameUpToHandles (env : Env) (cs1 cs2 : List ALCall) (w1 w2 : World)
    (hc : cs1.map eraseHandles = cs2.map eraseHandles) (h : w1.sameUpToHandles w2) :
    (issueAll env cs1 w1).sameUpToHandles (issueAll env cs2 w2) := by
  induction cs1 generalizing cs2 w1 w2 with
  | nil =>
    cases cs2 with
    | nil => exact h
    | cons c t => simp at hc
  | cons c1 t1 ih =>
    cases cs2 with
    | nil => simp at hc
    | cons c2 t2 =>
      simp only [List.map_cons, List.cons.injEq] at hc
      rw [issueAll_cons, issueAll_cons]
      exact ih t2 _ _ hc.2 (issue_sameUpToHandles env c1 c2 w1 w2 hc.1 h)

theorem assertNoError_sameUpToHandles (w1 w2 : World) (h : w1.sameUpToHandles w2) :
    (assertNoError w1).log = (assertNoError w2).log ∧
      (assertNoError w1).calls.map eraseHandles
        = (assertNoError w2).calls.map eraseHandles := by
  obtain ⟨h1, _, h3, h4⟩ := h
  unfold assertNoError
  by_cases hrun : w2.status = Status.running
  · have hrun1 : w1.status = Status.running := h1.trans hrun
    simp only [hrun, hrun1, ne_eq, not_true_eq_false, if_false]
    split <;> split <;> simp [h3, h4]
  · have hrun1 : ¬ w1.status = Status.running := by rw [h1]; exact hrun
    simp [hrun, hrun1, h3, h4]

theorem loadWrites_eraseHandles (eax : Bool) (e1 e2 : Nat) (p : EFXEAXREVERBPROPERTIES) :
    (typeWrite eax e1 :: fieldWrites eax e1 p).map eraseHandles
      = (typeWrite eax e2 :: fieldWrites eax e2 p).map eraseHandles := by
  cases eax <;> rfl

/-- Two loads of the same preset from the same world differ only in the handles
passed. -/
theorem loadPreset_sameUpToHandles (env : Env) (s1 s2 : SoundEffect)
    (p : EFXEAXREVERBPROPERTIES) (w : World) :
    (s1.loadPreset env p w).2.log = (s2.loadPreset env p w).2.log ∧
      (s1.loadPreset env p w).2.calls.map eraseHandles
        = (s2.loadPreset env p w).2.calls.map eraseHandles := by
  rw [loadPreset_eq, loadPreset_eq]
  apply assertNoError_sameUpToHandles
  apply issue_sameUpToHandles env (slotBind s1.m_effectSlot s1.m_effectId)
    (slotBind s2.m_effectSlot s2.m_effectId) _ _ rfl
  apply issueAll_sameUpToHandles env _ _ _ _ (loadWrites_eraseHandles _ _ _ _)
  exact ⟨rfl, rfl, rfl, rfl⟩

/-! ## The claims -/

/-- C1: for a name that is not a key of the catalog, `setPreset` records exactly one
error report and does nothing else: the world after the call is the world before it
with one more log entry, so no call into the audio library is made (the trace is
unchanged), the parameters of effect objects and slots are unchanged, and the
object, with `m_effectId`, `m_effectSlot` and the catalog, is returned as it was. -/
theorem setPreset_unknown_name (env : Env) (self : SoundEffect) (w : World)
    (presetName : String) (hrun : w.status = Status.running)
    (hkey : presetName ∉ self.m_presets.map Prod.fst) :
    (∃ msg, (self.setPreset env presetName w).2 = { w with log := w.log ++ [msg] }) ∧
      (self.setPreset env presetName w).2.log.length = w.log.length + 1 ∧
      (self.setPreset env presetName w).2.calls = w.calls ∧
      (self.setPreset env presetName w).2.effectParams = w.effectParams ∧
      (self.setPreset env presetName w).2.slotParams = w.slotParams ∧
      (self.setPreset env presetName w).1 = self := by
  rw [setPreset_of_missing env self presetName w (assocFind_eq_none _ _ hkey)]
  unfold g_logger_error
  simp [hrun]

/-- C1, at a concrete input: the name "cave" on an Active instance. -/
theorem setPreset_unknown_name_witness :
    "cave" ∉ activeObject.m_presets.map Prod.fst ∧
      (activeObject.setPreset eaxEnv "cave" readyWorld).2.log.length = 1 ∧
      (activeObject.setPreset eaxEnv "cave" readyWorld).2.calls = [] ∧
      (activeObject.setPreset eaxEnv "cave" readyWorld).1 = activeObject :=
  have h := setPreset_unknown_name eaxEnv activeObject readyWorld "cave" rfl (by decide)
  ⟨by decide, h.2.1, h.2.2.1, h.2.2.2.2.2⟩

/-- C6 (the code departs from it): the text logged for the unknown name "cave" is the
format string itself, with `%s` left in place, and "cave" does not occur in it. -/
theorem setPreset_unknown_message_omits_name :
    (activeObject.setPreset eaxEnv "cave" readyWorld).2.log
        = ["Could not find preset matching: %s\n"] ∧
      ¬ occursIn "cave" "Could not find preset matching: %s\n" := by
  constructor
  · rw [setPreset_of_missing eaxEnv activeObject "cave" readyWorld (by decide), missing_message]
    rfl
  · decide

/-- C3: on a device whose extension query reports "ALC_EXT_EFX" absent, the public
constructor leaves `m_effectId = 0` and `m_effectSlot = 0`, records exactly one error
report, makes no call other than the 22 entry-point look-ups, the extension query
and the final error check (so no allocation and no slot bind), and the catalog holds
the five built-in names. -/
theorem ctor_extension_absent (env : Env) (device : Nat) (w : World)
    (hrun : w.status = Status.running)
    (habs : env.alcIsExtensionPresent device "ALC_EXT_EFX" = false) :
    (SoundEffect.ctor env device w).1.m_effectId = 0 ∧
      (SoundEffect.ctor env device w).1.m_effectSlot = 0 ∧
      (SoundEffect.ctor env device w).2.log
        = w.log ++ [env.stdext_format "unable to locate OpenAl EFX extension"] ∧
      (SoundEffect.ctor env device w).2.calls
        = w.calls ++ (ctorQueries device ++ [ALCall.alGetError]) ∧
      (∀ c ∈ ctorQueries device ++ [ALCall.alGetError], isAllocOrBind c = false) ∧
      (SoundEffect.ctor env device w).1.m_presets.map Prod.fst = builtinNames ∧
      (SoundEffect.ctor env device w).1.m_presets.length = 5 ∧
      (∀ n ∈ builtinNames, ((SoundEffect.ctor env device w).1.find n).isSome = true) := by
  rw [ctor_absent env device w hrun habs]
  have hlog : (g_logger_error (env.stdext_format "unable to locate OpenAl EFX extension")
      ({ w with calls := w.calls ++ ctorQueries device, procs := env.loadedProcs } : World))
      = { w with calls := w.calls ++ ctorQueries device, procs := env.loadedProcs,
                 log := w.log ++ [env.stdext_format "unable to locate OpenAl EFX extension"] } := by
    unfold g_logger_error
    simp [hrun]
  rw [hlog]
  obtain ⟨c1, c2, _, _, _⟩ := assertNoError_facts
    ({ w with calls := w.calls ++ ctorQueries device, procs := env.loadedProcs,
              log := w.log ++ [env.stdext_format "unable to locate OpenAl EFX extension"] } :
      World) hrun
  refine ⟨rfl, rfl, c2, ?_, ?_, rfl, rfl, ?_⟩
  · rw [c1, List.append_assoc]
  · simp [ctorQueries, procNames, isAllocOrBind]
  · simp [builtinNames, SoundEffect.find, Env.catalog, assocFind]

/-- C3, at a concrete input: a library without the extension, from the start. -/
theorem ctor_extension_absent_witness :
    bareEnv.alcIsExtensionPresent 1 "ALC_EXT_EFX" = false ∧
      (SoundEffect.ctor bareEnv 1 startWorld).1.m_effectId = 0 ∧
      (SoundEffect.ctor bareEnv 1 startWorld).1.m_effectSlot = 0 ∧
      (SoundEffect.ctor bareEnv 1 startWorld).2.log
        = ["unable to locate OpenAl EFX extension"] :=
  have h := ctor_extension_absent bareEnv 1 startWorld rfl rfl
  ⟨rfl, h.1, h.2.1, h.2.2.1⟩

/-- C4: the destructor of an instance with `m_effectId ≠ 0`, with the two deletion
entry points resolved, makes exactly the calls `alDeleteEffects(1, &m_effectId)`,
`alDeleteAuxiliaryEffectSlots(1, &m_effectSlot)` and the error check of the
assertion, in this order; the destructor of an instance with `m_effectId = 0` leaves
the world untouched, so it makes no call at all. -/
theorem dtor_releases (env : Env) (self : SoundEffect) (w : World)
    (hrun : w.status = Status.running) :
    (self.m_effectId ≠ 0 → w.procs.deleteReady →
        (self.dtor env w).calls
          = w.calls ++ [ALCall.alDeleteEffects 1 self.m_effectId,
              ALCall.alDeleteAuxiliaryEffectSlots 1 self.m_effectSlot, ALCall.alGetError] ∧
        (self.dtor env w).log = w.log) ∧
      (self.m_effectId = 0 → self.dtor env w = w) := by
  constructor
  · intro hid hp
    unfold SoundEffect.dtor
    rw [if_pos hid]
    unfold alDeleteEffects alDeleteAuxiliaryEffectSlots
    obtain ⟨a1, a2, a3, a4⟩ := issue_of_resolved env
      (ALCall.alDeleteEffects 1 self.m_effectId) w hrun hp.1
    obtain ⟨b1, _, b3, b4⟩ := issue_of_resolved env
      (ALCall.alDeleteAuxiliaryEffectSlots 1 self.m_effectSlot) _ a1 (by rw [a2]; exact hp.2)
    obtain ⟨c1, c2, _, _, _⟩ := assertNoError_facts _ b1
    constructor
    · rw [c1, b3, a3]; simp
    · rw [c2, b4, a4]
  · intro hid
    unfold SoundEffect.dtor
    simp [hid]

/-- C4, at concrete inputs: an Active instance (effect 7, slot 9) and an instance
with both handles zero. -/
theorem dtor_releases_witness :
    (activeObject.dtor eaxEnv readyWorld).calls
        = [ALCall.alDeleteEffects 1 7, ALCall.alDeleteAuxiliaryEffectSlots 1 9,
            ALCall.alGetError] ∧
      (inertObject.dtor eaxEnv readyWorld).calls = [] :=
  ⟨((dtor_releases eaxEnv activeObject readyWorld rfl).1 (by decide) (by decide)).1,
    congrArg World.calls ((dtor_releases eaxEnv inertObject readyWorld rfl).2 rfl)⟩

/-- C5 as stated fails: with the extension present and `alGenAuxiliaryEffectSlots`
unresolved (every other entry point resolved), the constructor records no error,
allocates an effect (`m_effectId` becomes 25) and then calls the null
`alGenAuxiliaryEffectSlots`. -/
theorem ctor_unresolved_slot_entry_point :
    noSlotGenEnv.alcIsExtensionPresent 1 "ALC_EXT_EFX" = true ∧
      noSlotGenEnv.alGetProcAddress "alGenAuxiliaryEffectSlots" = false ∧
      (SoundEffect.ctor noSlotGenEnv 1 startWorld).2.log = [] ∧
      (SoundEffect.ctor noSlotGenEnv 1 startWorld).1.m_effectId = 25 ∧
      ALCall.alGenEffects 1 ∈ (SoundEffect.ctor noSlotGenEnv 1 startWorld).2.calls ∧
      (SoundEffect.ctor noSlotGenEnv 1 startWorld).2.status = Status.nullCall := by
  decide

/-- C5, amended: with the extension present and `alGenEffects` unresolved, the
constructor records one error and returns at once: both handles stay zero, the only
calls made are the 22 look-ups and the extension query (no allocation, no slot
bind, no call through any function pointer), and the program keeps running. -/
theorem ctor_alGenEffects_unresolved (env : Env) (device : Nat) (w : World)
    (hrun : w.status = Status.running)
    (hext : env.alcIsExtensionPresent device "ALC_EXT_EFX" = true)
    (hgen : env.alGetProcAddress "alGenEffects" = false) :
    (SoundEffect.ctor env device w).1.m_effectId = 0 ∧
      (SoundEffect.ctor env device w).1.m_effectSlot = 0 ∧
      (SoundEffect.ctor env device w).2.log
        = w.log ++ [env.stdext_format "unable to load OpenAl EFX extension"] ∧
      (SoundEffect.ctor env device w).2.calls = w.calls ++ ctorQueries device ∧
      (∀ c ∈ ctorQueries device, isAllocOrBind c = false) ∧
      (SoundEffect.ctor env device w).2.status = Status.running := by
  rw [ctor_unloaded env device w hrun hext hgen]
  unfold g_logger_error
  simp [hrun, ctorQueries, procNames, isAllocOrBind]

/-- C5 amended, at a concrete input: a library whose `alGenEffects` does not resolve. -/
theorem ctor_alGenEffects_unresolved_witness :
    noGenEnv.alcIsExtensionPresent 1 "ALC_EXT_EFX" = true ∧
      noGenEnv.alGetProcAddress "alGenEffects" = false ∧
      (SoundEffect.ctor noGenEnv 1 startWorld).1.m_effectId = 0 ∧
      (SoundEffect.ctor noGenEnv 1 startWorld).1.m_effectSlot = 0 ∧
      (SoundEffect.ctor noGenEnv 1 startWorld).2.log
        = ["unable to load OpenAl EFX extension"] ∧
      (SoundEffect.ctor noGenEnv 1 startWorld).2.status = Status.running :=
  have h := ctor_alGenEffects_unresolved noGenEnv 1 startWorld rfl rfl (by decide)
  ⟨rfl, by decide, h.1, h.2.1, h.2.2.1, h.2.2.2.2.2⟩

/-- C10: `setPreset` does not look at the handles.  For a name two instances map to
the same preset, the calls `setPreset` makes on one instance and on the other, from
the same world, agree once the handles passed are erased, and the same is logged:
whatever the two handles are, zero included.  When the program is running and the
four entry points of `loadPreset` are resolved, the calls are the model query, the
effect-type write, the model's field writes, the slot bind and the error check, with
`m_effectId` and `m_effectSlot` passed as they are, and `setPreset` logs nothing; so
with both handles zero the writes go to effect 0 and the bind to slot 0. -/
theorem setPreset_ignores_handles (env : Env) (self other : SoundEffect) (w : World)
    (presetName : String) (preset : EFXEAXREVERBPROPERTIES)
    (hfind : self.find presetName = some preset)
    (hother : other.find presetName = some preset) :
    ((self.setPreset env presetName w).2.calls.map eraseHandles
        = (other.setPreset env presetName w).2.calls.map eraseHandles ∧
      (self.setPreset env presetName w).2.log = (other.setPreset env presetName w).2.log) ∧
    (w.status = Status.running → w.procs.loadReady →
      (self.setPreset env presetName w).2.calls
          = w.calls ++ ([ALCall.alGetEnumValue "AL_EFFECT_EAXREVERB",
              typeWrite env.eax self.m_effectId]
            ++ fieldWrites env.eax self.m_effectId preset
            ++ [slotBind self.m_effectSlot self.m_effectId, ALCall.alGetError]) ∧
        (self.setPreset env presetName w).2.log = w.log ∧
        (self.setPreset env presetName w).1 = self ∧
        (self.m_effectId = 0 → self.m_effectSlot = 0 →
          (self.setPreset env presetName w).2.calls
            = w.calls ++ ([ALCall.alGetEnumValue "AL_EFFECT_EAXREVERB", typeWrite env.eax 0]
              ++ fieldWrites env.eax 0 preset ++ [slotBind 0 0, ALCall.alGetError]))) := by
  rw [setPreset_of_found env self presetName preset w hfind,
    setPreset_of_found env other presetName preset w hother]
  obtain ⟨s1, s2⟩ := loadPreset_sameUpToHandles env self other preset w
  refine ⟨⟨s2, s1⟩, ?_⟩
  intro hrun hp
  obtain ⟨h1, h2, h3, _⟩ := loadPreset_trace env self preset w hrun hp
  refine ⟨h2, h3, h1, ?_⟩
  intro hid hslot
  rw [h2, hid, hslot]
  rfl

/-- C10, at a concrete input: "room" on an instance with both handles zero, compared
with an Active instance (effect 7, slot 9). -/
theorem setPreset_ignores_handles_witness :
    (inertObject.setPreset standardEnv "room" readyWorld).2.calls.map eraseHandles
        = (activeObject.setPreset standardEnv "room" readyWorld).2.calls.map eraseHandles ∧
      (inertObject.setPreset standardEnv "room" readyWorld).2.calls
        = [ALCall.alGetEnumValue "AL_EFFECT_EAXREVERB", typeWrite false 0]
          ++ fieldWrites false 0 (samplePreset 300)
          ++ [slotBind 0 0, ALCall.alGetError] ∧
      (inertObject.setPreset standardEnv "room" readyWorld).2.log = [] :=
  have h := setPreset_ignores_handles standardEnv inertObject activeObject readyWorld
    "room" (samplePreset 300) (by decide) (by decide)
  ⟨h.1.1, (h.2 rfl (by decide)).1, (h.2 rfl (by decide)).2.1⟩

/-- C2: for each of the five built-in names, on an instance with the built-in catalog,
with the four entry points of `loadPreset` resolved and a library that accepts the
effect-type write, `setPreset` logs nothing and leaves the effect object's
`AL_EFFECT_TYPE` equal to `AL_EFFECT_EAXREVERB` when `alGetEnumValue` is non-zero and
to `AL_EFFECT_REVERB` otherwise; the type write is the first write of the load and no
later call of the load writes the type.  With a library that accepts every call and
no pending error the program keeps running. -/
theorem setPreset_builtin_sets_type (env : Env) (self : SoundEffect) (w : World)
    (presetName : String) (hname : presetName ∈ builtinNames)
    (hcat : self.m_presets = env.catalog)
    (hrun : w.status = Status.running) (hp : w.procs.loadReady)
    (hacc : env.rejects (w.calls ++ [ALCall.alGetEnumValue "AL_EFFECT_EAXREVERB"])
      (typeWrite env.eax self.m_effectId) = false) :
    (self.setPreset env presetName w).2.log = w.log ∧
      (self.setPreset env presetName w).2.effectParam self.m_effectId AL_EFFECT_TYPE
        = some (ALValue.i (ALintArg.token
            (if env.alGetEnumValue "AL_EFFECT_EAXREVERB" ≠ 0 then AL_EFFECT_EAXREVERB
             else AL_EFFECT_REVERB))) ∧
      (∃ later, (self.setPreset env presetName w).2.calls
          = w.calls ++ [ALCall.alGetEnumValue "AL_EFFECT_EAXREVERB",
              typeWrite env.eax self.m_effectId] ++ later ∧
        ∀ c ∈ later, isTypeWrite c = false) ∧
      ((∀ h c, env.rejects h c = false) → w.alError = false →
        (self.setPreset env presetName w).2.status = Status.running) := by
  have hfind : ∃ p, self.find presetName = some p := by
    simp only [builtinNames, List.mem_cons, List.mem_singleton, List.not_mem_nil,
      or_false] at hname
    rcases hname with rfl | rfl | rfl | rfl | rfl <;>
      simp [SoundEffect.find, hcat, Env.catalog, assocFind]
  obtain ⟨p, hfind⟩ := hfind
  rw [setPreset_of_found env self presetName p w hfind]
  obtain ⟨_, h2, h3, _⟩ := loadPreset_trace env self p w hrun hp
  have h4 := loadPreset_effectType env self p w hrun hp hacc
  refine ⟨h3, ?_, ⟨fieldWrites env.eax self.m_effectId p ++
      [slotBind self.m_effectSlot self.m_effectId, ALCall.alGetError], ?_, ?_⟩, ?_⟩
  · rw [h4]
    by_cases h0 : env.alGetEnumValue "AL_EFFECT_EAXREVERB" = 0 <;>
      simp [modelType, Env.eax, h0]
  · rw [h2]
    simp [loadCalls]
  · intro c hc
    rcases List.mem_append.mp hc with hc | hc
    · exact fieldWrites_not_typeWrite _ _ _ c hc
    · simp only [List.mem_cons, List.mem_singleton, List.not_mem_nil, or_false] at hc
      rcases hc with rfl | rfl <;> rfl
  · intro hall herr
    exact (loadPreset_accepting env self p w hrun hp hall herr).1

/-- C2, at a concrete input: "underWater" on an Active instance, extended model. -/
theorem setPreset_builtin_sets_type_witness :
    "underWater" ∈ builtinNames ∧
      (activeObject.setPreset eaxEnv "underWater" readyWorld).2.log = [] ∧
      (activeObject.setPreset eaxEnv "underWater" readyWorld).2.effectParam 7
          AL_EFFECT_TYPE
        = some (ALValue.i (ALintArg.token AL_EFFECT_EAXREVERB)) ∧
      (activeObject.setPreset eaxEnv "underWater" readyWorld).2.status = Status.running :=
  have h := setPreset_builtin_sets_type eaxEnv activeObject readyWorld "underWater"
    (by decide) rfl rfl (by decide) rfl
  ⟨by decide, h.1, h.2.1, h.2.2.2 (fun _ _ => rfl) rfl⟩

set_option maxRecDepth 100000

/-- C7: in every state reached from the public constructor by `setPreset` calls with
any names, as long as the program is running (no assertion failed, no null pointer
called), a non-zero `m_effectId` comes with a non-zero `m_effectSlot` whose
`AL_EFFECTSLOT_EFFECT` target is `m_effectId`; `setPreset` never changes
`m_effectId` or `m_effectSlot`; and every `loadPreset` that leaves the program
running ends with the bind of `m_effectSlot` to `m_effectId`, followed only by the
error check of the assertion. -/
theorem reachable_slot_targets_effect (env : Env) (st : SoundEffect × World)
    (hreach : Reachable env st) :
    (st.2.status = Status.running → st.1.m_effectId ≠ 0 →
        st.1.m_effectSlot ≠ 0 ∧
          st.2.slotTarget st.1.m_effectSlot = some st.1.m_effectId) ∧
      (∀ presetName,
        (st.1.setPreset env presetName st.2).1.m_effectId = st.1.m_effectId ∧
          (st.1.setPreset env presetName st.2).1.m_effectSlot = st.1.m_effectSlot) ∧
      (∀ preset, (st.1.loadPreset env preset st.2).2.status = Status.running →
        ∃ before, (st.1.loadPreset env preset st.2).2.calls
          = before ++ [slotBind st.1.m_effectSlot st.1.m_effectId, ALCall.alGetError]) := by
  refine ⟨(reachable_invariant env st hreach).2, ?_, ?_⟩
  · intro presetName
    rw [setPreset_fst]
    exact ⟨rfl, rfl⟩
  · intro preset hok
    obtain ⟨h1, h2, h3⟩ := loadPreset_running_inv env st.1 preset st.2 hok
    obtain ⟨_, hc, _, _⟩ := loadPreset_trace_of_resolved env st.1 preset st.2 h1 h2 h3
    refine ⟨st.2.calls ++ ([ALCall.alGetEnumValue "AL_EFFECT_EAXREVERB",
      typeWrite env.eax st.1.m_effectId] ++ fieldWrites env.eax st.1.m_effectId preset), ?_⟩
    rw [hc]
    simp [loadCalls]

/-- C7, at a concrete input: the state after construction on a capable device and
`setPreset("room")` has effect 25 bound to slot 26. -/
theorem reachable_slot_targets_effect_witness :
    ((SoundEffect.ctor eaxEnv 1 startWorld).1.setPreset eaxEnv "room"
        (SoundEffect.ctor eaxEnv 1 startWorld).2).1.m_effectId = 25 ∧
      ((SoundEffect.ctor eaxEnv 1 startWorld).1.setPreset eaxEnv "room"
        (SoundEffect.ctor eaxEnv 1 startWorld).2).1.m_effectSlot ≠ 0 ∧
      ((SoundEffect.ctor eaxEnv 1 startWorld).1.setPreset eaxEnv "room"
        (SoundEffect.ctor eaxEnv 1 startWorld).2).2.slotTarget
          ((SoundEffect.ctor eaxEnv 1 startWorld).1.setPreset eaxEnv "room"
            (SoundEffect.ctor eaxEnv 1 startWorld).2).1.m_effectSlot = some 25 :=
  have h := (reachable_slot_targets_effect eaxEnv _
    (Reachable.setPreset _ "room" (Reachable.ctor 1 startWorld rfl))).1
    (by decide) (by decide)
  ⟨by decide, h.1, h.2⟩

/-- C8 as stated fails: on a capable device that recognises the extended model, each
of the two loads of the scenario writes 23 preset fields, which is not between 12
and 21. -/
theorem scenario_extended_load_outside_range :
    eaxEnv.capable 1 ∧
      ((scenario eaxEnv 1 startWorld).2.1.calls.drop
          (scenario eaxEnv 1 startWorld).1.calls.length).countP isFieldWrite = 23 ∧
      ((scenario eaxEnv 1 startWorld).2.2.1.calls.drop
          (scenario eaxEnv 1 startWorld).2.1.calls.length).countP isFieldWrite = 23 ∧
      ¬ (12 ≤ ((scenario eaxEnv 1 startWorld).2.1.calls.drop
            (scenario eaxEnv 1 startWorld).1.calls.length).countP isFieldWrite ∧
          ((scenario eaxEnv 1 startWorld).2.1.calls.drop
            (scenario eaxEnv 1 startWorld).1.calls.length).countP isFieldWrite ≤ 21) := by
  refine ⟨eaxEnv_capable, ?_, ?_, ?_⟩ <;> decide

/-- C8, amended: in the scenario on a capable device, from a running program without
pending error, the constructor allocates an effect and a slot, the two `setPreset`
calls each perform one load sequence that writes 23 preset fields when the library
recognises the extended model and 13 otherwise, the destructor then releases the
effect and the slot once each, no other call releases anything, nothing is logged
and the program is still running at the end. -/
theorem scenario_capable (env : Env) (device : Nat) (w : World)
    (hcap : env.capable device) (hrun : w.status = Status.running)
    (herr : w.alError = false) :
    ∃ id slot, id ≠ 0 ∧
      (scenario env device w).1.calls
        = w.calls ++ ctorQueries device ++ ctorAllocCalls id slot ∧
      (scenario env device w).2.1.calls
        = (scenario env device w).1.calls
          ++ loadCalls env.eax id slot env.EFX_REVERB_PRESET_ROOM ∧
      (scenario env device w).2.2.1.calls
        = (scenario env device w).2.1.calls
          ++ loadCalls env.eax id slot env.EFX_REVERB_PRESET_UNDERWATER ∧
      (scenario env device w).2.2.2.calls
        = (scenario env device w).2.2.1.calls
          ++ [ALCall.alDeleteEffects 1 id, ALCall.alDeleteAuxiliaryEffectSlots 1 slot,
              ALCall.alGetError] ∧
      (∀ p, (loadCalls env.eax id slot p).countP isFieldWrite
        = if env.alGetEnumValue "AL_EFFECT_EAXREVERB" ≠ 0 then 23 else 13) ∧
      (∀ p, (loadCalls env.eax id slot p).countP isDelete = 0) ∧
      (ctorQueries device ++ ctorAllocCalls id slot).countP isDelete = 0 ∧
      (scenario env device w).2.2.2.log = w.log ∧
      (scenario env device w).2.2.2.status = Status.running := by
  obtain ⟨id, slot, h0, a1, a2, a3, a4, a5, a6⟩ := ctor_capable env device w hcap hrun herr
  have hacc := hcap.2.2.2
  have hidE : (SoundEffect.ctor env device w).1.m_effectId = id := by rw [a1]
  have hslE : (SoundEffect.ctor env device w).1.m_effectSlot = slot := by rw [a1]
  have hfr := catalog_find_room env (SoundEffect.ctor env device w).1 (by rw [a1])
  have hfu := catalog_find_underWater env (SoundEffect.ctor env device w).1 (by rw [a1])
  have hready : (SoundEffect.ctor env device w).2.procs.loadReady := by
    rw [a5]; exact const_true_loadReady
  -- first load
  have b0 := setPreset_of_found env _ "room" _ (SoundEffect.ctor env device w).2 hfr
  obtain ⟨b1, b2, b3, b4⟩ := loadPreset_trace env (SoundEffect.ctor env device w).1
    env.EFX_REVERB_PRESET_ROOM _ a3 hready
  obtain ⟨b5, b6⟩ := loadPreset_accepting env (SoundEffect.ctor env device w).1
    env.EFX_REVERB_PRESET_ROOM _ a3 hready hacc a4
  rw [← b0] at b1 b2 b3 b4 b5 b6
  -- second load
  have hfu' : ((SoundEffect.ctor env device w).1.setPreset env "room"
      (SoundEffect.ctor env device w).2).1.find "underWater"
      = some env.EFX_REVERB_PRESET_UNDERWATER := by rw [b1]; exact hfu
  have hready' : ((SoundEffect.ctor env device w).1.setPreset env "room"
      (SoundEffect.ctor env device w).2).2.procs.loadReady := by rw [b4]; exact hready
  have c0 := setPreset_of_found env _ "underWater" _
    ((SoundEffect.ctor env device w).1.setPreset env "room"
      (SoundEffect.ctor env device w).2).2 hfu'
  obtain ⟨c1, c2, c3, c4⟩ := loadPreset_trace env
    ((SoundEffect.ctor env device w).1.setPreset env "room"
      (SoundEffect.ctor env device w).2).1 env.EFX_REVERB_PRESET_UNDERWATER _ b5 hready'
  obtain ⟨c5, c6⟩ := loadPreset_accepting env
    ((SoundEffect.ctor env device w).1.setPreset env "room"
      (SoundEffect.ctor env device w).2).1 env.EFX_REVERB_PRESET_UNDERWATER _ b5 hready'
    hacc b6
  rw [← c0] at c1 c2 c3 c4 c5 c6
  -- release
  have hobj : (((SoundEffect.ctor env device w).1.setPreset env "room"
      (SoundEffect.ctor env device w).2).1.setPreset env "underWater"
      ((SoundEffect.ctor env device w).1.setPreset env "room"
        (SoundEffect.ctor env device w).2).2).1 = ⟨device, id, slot, env.catalog⟩ := by
    rw [c1, b1, a1]
  obtain ⟨d1, d2, d3⟩ := dtor_capable env
    (((SoundEffect.ctor env device w).1.setPreset env "room"
      (SoundEffect.ctor env device w).2).1.setPreset env "underWater"
      ((SoundEffect.ctor env device w).1.setPreset env "room"
        (SoundEffect.ctor env device w).2).2).1
    (((SoundEffect.ctor env device w).1.setPreset env "room"
      (SoundEffect.ctor env device w).2).1.setPreset env "underWater"
      ((SoundEffect.ctor env device w).1.setPreset env "room"
        (SoundEffect.ctor env device w).2).2).2
    (by rw [hobj]; exact h0) c5 (by rw [c4, b4, a5]) c6 hacc
  refine ⟨id, slot, h0, a2, ?_, ?_, ?_, ?_, ?_, ?_, ?_, ?_⟩
  · show ((SoundEffect.ctor env device w).1.setPreset env "room"
      (SoundEffect.ctor env device w).2).2.calls = _
    rw [b2, hidE, hslE]
    rfl
  · show (((SoundEffect.ctor env device w).1.setPreset env "room"
      (SoundEffect.ctor env device w).2).1.setPreset env "underWater"
      ((SoundEffect.ctor env device w).1.setPreset env "room"
        (SoundEffect.ctor env device w).2).2).2.calls = _
    rw [c2, b1, hidE, hslE]
    rfl
  · show (SoundEffect.dtor env _ _).calls = _
    rw [d1, hobj]
    rfl
  · intro p
    rw [loadCalls_countP_isFieldWrite]
    by_cases h0 : env.alGetEnumValue "AL_EFFECT_EAXREVERB" = 0 <;> simp [Env.eax, h0]
  · intro p
    exact loadCalls_countP_isDelete _ _ _ p
  · simp [ctorQueries, procNames, ctorAllocCalls, slotBind, isDelete, List.countP_cons]
  · show (SoundEffect.dtor env _ _).log = _
    rw [d2, c3, b3, a6]
  · exact d3

/-- C8 amended, at a concrete input: a capable library with only the standard model. -/
theorem scenario_capable_witness :
    ∃ id slot, id ≠ 0 ∧
      (scenario standardEnv 1 startWorld).2.2.2.calls
        = ctorQueries 1 ++ ctorAllocCalls id slot
          ++ loadCalls false id slot (samplePreset 300)
          ++ loadCalls false id slot (samplePreset 500)
          ++ [ALCall.alDeleteEffects 1 id, ALCall.alDeleteAuxiliaryEffectSlots 1 slot,
              ALCall.alGetError] ∧
      (scenario standardEnv 1 startWorld).2.2.2.log = [] ∧
      (scenario standardEnv 1 startWorld).2.2.2.status = Status.running :=
  have h := scenario_capable standardEnv 1 startWorld standardEnv_capable rfl rfl
  Exists.elim h (fun id h => Exists.elim h (fun slot h =>
    ⟨id, slot, h.1, by
      rw [h.2.2.2.2.1, h.2.2.2.1, h.2.2.1, h.2.1]
      rfl, h.2.2.2.2.2.2.2.2.1, h.2.2.2.2.2.2.2.2.2⟩))

/-- C9 as stated fails: under the standard model a load writes 13 preset fields and
never uses the float-vector setter, while the field set the claim describes (the
extended set without the six low-frequency, modulation and reference fields) has 17
fields, among them the two pan vectors and echo time and depth. -/
theorem loadPreset_standard_omits_pans_and_echo :
    standardEnv.alGetEnumValue "AL_EFFECT_EAXREVERB" = 0 ∧
      ((activeObject.loadPreset standardEnv (samplePreset 300) readyWorld).2.calls.filter
        isFieldWrite).length = 13 ∧
      claimedStandardFields.length = 17 ∧
      PresetField.reflectionsPan ∈ claimedStandardFields ∧
      PresetField.lateReverbPan ∈ claimedStandardFields ∧
      PresetField.echoTime ∈ claimedStandardFields ∧
      PresetField.echoDepth ∈ claimedStandardFields ∧
      ((activeObject.loadPreset standardEnv (samplePreset 300) readyWorld).2.calls.filter
        isVectorWrite) = [] ∧
      (activeObject.loadPreset standardEnv (samplePreset 300) readyWorld).2.calls.filter
          isFieldWrite
        ≠ writesOf false claimedStandardFields 7 (samplePreset 300) := by
  decide

/-- C9, amended: for every preset and either model, with the entry points of
`loadPreset` resolved, the writes between the effect-type write and the slot bind
are one write per field of the model's field set, in order, each with the value of
that field in the preset and through the setter of its kind: the decay-limit flag
through `alEffecti`, the two pan vectors through `alEffectfv`, every other field
through `alEffectf`.  The extended set is all 23 fields; the standard set is the
extended set without low-frequency gain, low-frequency decay ratio, modulation time
and depth, the HF and LF references, the two pan vectors, echo time and echo depth. -/
theorem loadPreset_writes_model_fields (env : Env) (self : SoundEffect)
    (preset : EFXEAXREVERBPROPERTIES) (w : World) (hrun : w.status = Status.running)
    (hp : w.procs.loadReady) :
    (self.loadPreset env preset w).2.calls
        = w.calls ++ ([ALCall.alGetEnumValue "AL_EFFECT_EAXREVERB",
            typeWrite env.eax self.m_effectId]
          ++ (modelFields env.eax).map
              (fun f => setterCall self.m_effectId (modelToken env.eax f) (f.value preset))
          ++ [slotBind self.m_effectSlot self.m_effectId, ALCall.alGetError]) ∧
      (modelFields env.eax).Nodup ∧
      (∀ f, f ∈ modelFields true) ∧
      (modelFields true).length = 23 ∧
      (∀ f, f ∈ modelFields false ↔
        f ∉ [PresetField.gainLF, .decayLFRatio, .modulationTime, .modulationDepth,
              .hfReference, .lfReference, .reflectionsPan, .lateReverbPan, .echoTime,
              .echoDepth]) ∧
      (∀ e t, setterCall e t (PresetField.decayHFLimit.value preset)
        = ALCall.alEffecti e t (ALintArg.int preset.iDecayHFLimit)) ∧
      (∀ e t, setterCall e t (PresetField.reflectionsPan.value preset)
        = ALCall.alEffectfv e t preset.flReflectionsPan) ∧
      (∀ e t, setterCall e t (PresetField.lateReverbPan.value preset)
        = ALCall.alEffectfv e t preset.flLateReverbPan) ∧
      (∀ f, f ∉ [PresetField.decayHFLimit, .reflectionsPan, .lateReverbPan] →
        ∃ x, ∀ e t, setterCall e t (f.value preset) = ALCall.alEffectf e t x) := by
  refine ⟨(loadPreset_trace env self preset w hrun hp).2.1, ?_, ?_, ?_, ?_, ?_, ?_, ?_, ?_⟩
  · cases env.eax <;> decide
  · intro f; cases f <;> decide
  · decide
  · intro f; cases f <;> decide
  · intro e t; rfl
  · intro e t; rfl
  · intro e t; rfl
  · intro f hf
    cases f <;> first
      | exact absurd hf (by decide)
      | exact ⟨_, fun _ _ => rfl⟩

/-- C9 amended, at a concrete input: the calls of a load under the standard model. -/
theorem loadPreset_writes_model_fields_witness :
    (activeObject.loadPreset standardEnv (samplePreset 300) readyWorld).2.calls
      = [ALCall.alGetEnumValue "AL_EFFECT_EAXREVERB",
         ALCall.alEffecti 7 AL_EFFECT_TYPE (ALintArg.token AL_EFFECT_REVERB),
         ALCall.alEffectf 7 AL_REVERB_DENSITY ⟨301⟩,
         ALCall.alEffectf 7 AL_REVERB_DIFFUSION ⟨302⟩,
         ALCall.alEffectf 7 AL_REVERB_GAIN ⟨303⟩,
         ALCall.alEffectf 7 AL_REVERB_GAINHF ⟨304⟩,
         ALCall.alEffectf 7 AL_REVERB_DECAY_TIME ⟨306⟩,
         ALCall.alEffectf 7 AL_REVERB_DECAY_HFRATIO ⟨307⟩,
         ALCall.alEffectf 7 AL_REVERB_REFLECTIONS_GAIN ⟨309⟩,
         ALCall.alEffectf 7 AL_REVERB_REFLECTIONS_DELAY ⟨310⟩,
         ALCall.alEffectf 7 AL_REVERB_LATE_REVERB_GAIN ⟨314⟩,
         ALCall.alEffectf 7 AL_REVERB_LATE_REVERB_DELAY ⟨315⟩,
         ALCall.alEffectf 7 AL_REVERB_AIR_ABSORPTION_GAINHF ⟨323⟩,
         ALCall.alEffectf 7 AL_REVERB_ROOM_ROLLOFF_FACTOR ⟨326⟩,
         ALCall.alEffecti 7 AL_REVERB_DECAY_HFLIMIT (ALintArg.int 1),
         ALCall.alAuxiliaryEffectSloti 9 AL_EFFECTSLOT_EFFECT 7,
         ALCall.alGetError] :=
  (loadPreset_writes_model_fields standardEnv activeObject (samplePreset 300) readyWorld
    rfl (by decide)).1

end SoundEffectModel
